import Mathlib

/-!
# Verification of the Spartan verifier (`src/scheme/src/spartan/verify.rs`)

This file gives a shallow embedding of the Spartan verification engine of the
`ckb-zkp` repository and proves/refutes the specification claims about it.

Conventions of the embedding:
* The embedding is generic over the scalar field `F` and the commitment
  group `G` (the Rust code is generic over `E : PairingEngine`, with
  `F = E::Fr` and `G = E::G1Affine`).
* A Rust function that can terminate the process (an `assert!`, an
  `unwrap()` on a failing computation, an out-of-bounds index, or an
  arithmetic underflow) is modelled as an `Option`-valued function where
  `none` is the process-fatal abort (panic).  A value returned to the
  caller is `some _`; the `Result` values of the two public entry points
  keep their `Except` layer so that a typed error is representable.
* The `merlin` transcript and the helper modules of the repository that are
  not part of the provided sources (`commitments.rs`, `polynomial.rs`,
  `data_structure.rs`, `inner_product.rs`, `spark.rs`, `math`'s `log2`) are
  modelled from the specification; each such definition carries a
  `Modelled from the spec:` doc comment.
-/

set_option maxRecDepth 20000

namespace Spartan

/-- The error type of `crate::r1cs::SynthesisError`.  The verifier never
constructs an error value itself (every internal `Result` is unwrapped), so a
single representative constructor suffices for the embedding. -/
inductive SynthesisError : Type
  | malformed : SynthesisError
deriving DecidableEq, Repr

deriving instance DecidableEq for Except

/-- Model of a Rust `assert!`: succeed on a true condition, abort (panic,
modelled as `none`) otherwise. -/
def assertP (p : Prop) [Decidable p] : Option Unit :=
  if p then some () else none

theorem assertP_eq_some {p : Prop} [Decidable p] {u : Unit}
    (h : assertP p = some u) : p := by
  by_cases hp : p
  · exact hp
  · simp [assertP, hp] at h

theorem assertP_of {p : Prop} [Decidable p] (hp : p) : assertP p = some () := by
  simp [assertP, hp]

/-! ## Transcript (Fiat–Shamir) -/

/-- Mixing step of the toy transcript hash.  The modulus keeps the state
small; the concrete function is irrelevant to every claim, only its
determinism as a function of the absorbed history matters. -/
def mixNat (s a : ℕ) : ℕ := (s * 131 + a + 7) % 1000003

/-- Modelled from the spec: the `merlin` transcript (an external
collaborator, §4.1) is a process-local absorption state that produces
challenges as a deterministic pure function of all previously absorbed,
domain-labeled messages.  `chlog` records every challenge that has been
derived, so that "identical intermediate challenges" is expressible. -/
structure Transcript where
  state : ℕ
  chlog : List ℕ
deriving DecidableEq, Repr

/-- Modelled from the spec: `Transcript::new(label)` starts a fresh
absorption state from a fixed domain label. -/
def Transcript.new (label : List ℕ) : Transcript :=
  ⟨label.foldl mixNat 1, []⟩

/-- Modelled from the spec: `append_message(label, bytes)` absorbs
domain-separated data into the state. -/
def Transcript.append (t : Transcript) (label data : List ℕ) : Transcript :=
  ⟨(label ++ data).foldl mixNat (mixNat t.state 2), t.chlog⟩

/-- Modelled from the spec: `challenge_bytes(label, buf)` derives
pseudorandom data from the absorbed history and advances the state. -/
def Transcript.challenge (t : Transcript) (label : List ℕ) : ℕ × Transcript :=
  let c := label.foldl mixNat (mixNat t.state 3)
  (c, ⟨mixNat c 5, t.chlog ++ [c]⟩)

/-- Byte encoding of a label string. -/
def lbl (s : String) : List ℕ := s.toList.map Char.toNat

/-- Serialization interface: how field and group elements are turned into
absorbable data (the Rust `to_bytes!`). -/
structure Ser (F G : Type) where
  fB : F → ℕ
  gB : G → ℕ

variable {F G : Type} [Field F] [DecidableEq F]
variable [AddCommGroup G] [Module F G] [DecidableEq G]

/-- Absorb one field element. -/
def appendF (σ : Ser F G) (t : Transcript) (label : String) (x : F) : Transcript :=
  t.append (lbl label) [σ.fB x]

/-- Absorb a vector of field elements (the Rust `to_bytes!` of a `Vec`). -/
def appendFs (σ : Ser F G) (t : Transcript) (label : String) (xs : List F) : Transcript :=
  t.append (lbl label) (xs.map σ.fB)

/-- Absorb one group element. -/
def appendG (σ : Ser F G) (t : Transcript) (label : String) (x : G) : Transcript :=
  t.append (lbl label) [σ.gB x]

/-- Absorb a vector of group elements. -/
def appendGs (σ : Ser F G) (t : Transcript) (label : String) (xs : List G) : Transcript :=
  t.append (lbl label) (xs.map σ.gB)

/-- Absorb a byte-string message (for the `b"protocol-name"` messages). -/
def appendStr (t : Transcript) (label s : String) : Transcript :=
  t.append (lbl label) (lbl s)

/-- Modelled from the spec: `random_bytes_to_fr` (`data_structure.rs`, not in
the provided sources) maps a fixed-width challenge buffer to a field
element. -/
def bytesToFr (n : ℕ) : F := (n : F)

/-- Draw one field-element challenge (a `challenge_bytes` call followed by
`random_bytes_to_fr`). -/
def challengeF (t : Transcript) (label : String) : F × Transcript :=
  let c := t.challenge (lbl label)
  (bytesToFr c.1, c.2)

/-- Draw `k` field-element challenges in order with the same label. -/
def challengeVecF : Transcript → String → ℕ → List F × Transcript
  | t, _, 0 => ([], t)
  | t, label, k + 1 =>
    let c := challengeF (F := F) t label
    let rest := challengeVecF c.2 label k
    (c.1 :: rest.1, rest.2)

/-! ## Spec-modelled numeric and polynomial helpers -/

/-- Fuel-driven ceiling base-2 logarithm: `⌈log₂ x⌉` computed through the
recurrence `⌈log₂ x⌉ = ⌈log₂ ⌈x/2⌉⌉ + 1` (structural in the fuel so the
kernel can evaluate it). -/
def log2Fuel : ℕ → ℕ → ℕ
  | 0, _ => 0
  | fuel + 1, x => if x ≤ 1 then 0 else log2Fuel fuel ((x + 1) / 2) + 1

/-- Modelled from the spec: `math::log2` (the `math` crate's `lib.rs` is not
in the provided sources); the spec uses `⌈log₂ n⌉` rounds/layers with
`log2 x = 0` for `x ≤ 1`. -/
def log2 (x : ℕ) : ℕ := log2Fuel x x

/-- Rust `usize::next_power_of_two`: the least power of two that is `≥ n`
(with `0 → 1`). -/
def nextPow2 (n : ℕ) : ℕ := 2 ^ log2 n

/-- Modelled from the spec (§4.2): the Pedersen vector commitment
`poly_commit_vec(generators, vector, h, blind) = Σ gᵢ·vᵢ + h·blind`
(`commitments.rs` is not in the provided sources).  The spec invariant
"generator count ≥ vector length" makes the truncating `zipWith` exact. -/
def poly_commit_vec (gens : List G) (v : List F) (h : G) (blind : F) : G :=
  (List.zipWith (fun vi gi => vi • gi) v gens).sum + blind • h

/-- The Lagrange (equality) basis coefficient of index `i` at point `r`:
`∏ₖ (if bit k of i then rₖ else 1 − rₖ)`, most significant bit first. -/
def evalEqAt (r : List F) (i : ℕ) : F :=
  ((List.range r.length).map
    (fun k => if i.testBit (r.length - 1 - k) then r.getD k 0 else 1 - r.getD k 0)).prod

/-- Modelled from the spec: `eval_eq` (`polynomial.rs`, not in the provided
sources) lists all `2^|r|` equality-basis evaluations `eq(r, bits(i))`. -/
def eval_eq (r : List F) : List F :=
  (List.range (2 ^ r.length)).map (evalEqAt r)

/-- Modelled from the spec: `eval_eq_x_y` (`polynomial.rs`) is the equality
polynomial `eq(x,y) = ∏ᵢ (xᵢyᵢ + (1−xᵢ)(1−yᵢ))`. -/
def eval_eq_x_y (x y : List F) : F :=
  (List.zipWith (fun a b => a * b + (1 - a) * (1 - b)) x y).prod

/-- Modelled from the spec: `evaluate_value` (`polynomial.rs`) evaluates the
multilinear extension of the vector `v` at the point `r`. -/
def evaluate_value (v : List F) (r : List F) : F :=
  ((List.range v.length).map (fun i => v.getD i 0 * evalEqAt r i)).sum

/-- Modelled from the spec: `evaluate_mle` (`polynomial.rs`) evaluates the
multilinear extension of an R1CS matrix at `(rx, ry)`; the matrix is
modelled densely as a list of rows. -/
def evaluate_mle (m : List (List F)) (rx ry : List F) : F :=
  ((List.range (2 ^ rx.length)).map (fun i =>
    ((List.range (2 ^ ry.length)).map (fun j =>
      evalEqAt rx i * evalEqAt ry j * ((m.getD i []).getD j 0))).sum)).sum

/-- Modelled from the spec: `bound_poly_var_bot` (`polynomial.rs`) binds the
bottom variable of a table of evaluations to `r`, halving its length:
`p'ᵢ = p₂ᵢ + r·(p₂ᵢ₊₁ − p₂ᵢ)`. -/
def bound_poly_var_bot (p : List F) (r : F) : List F :=
  (List.range (p.length / 2)).map
    (fun i => p.getD (2 * i) 0 + r * (p.getD (2 * i + 1) 0 - p.getD (2 * i) 0))

/-- Modelled from the spec: `equalize_length` (`spark.rs`, not in the
provided sources) pads the shorter of the two points with zeros so both have
the length of the longer. -/
def equalize_length (rx ry : List F) : List F × List F :=
  let n := max rx.length ry.length
  (List.replicate (n - rx.length) 0 ++ rx, List.replicate (n - ry.length) 0 ++ ry)

/-- A dense polynomial (`math::fft::DensePolynomial`): its coefficient list,
lowest degree first. -/
structure Poly (F : Type) where
  coeffs : List F
deriving DecidableEq, Repr

/-- Polynomial evaluation `Σᵢ cᵢ xⁱ`. -/
def Poly.evaluate (p : Poly F) (x : F) : F :=
  ((List.range p.coeffs.length).map (fun i => p.coeffs.getD i 0 * x ^ i)).sum

/-! ## Data structures

Modelled from the spec: the proof and parameter structures live in
`data_structure.rs`, which is not in the provided sources; their shapes are
the ones the verifier (`verify.rs`) consumes. -/

/-- One tier of Pedersen generators (`MultiCommitmentSetupParameters`). -/
structure MultiCommitmentSetupParameters (G : Type) where
  generators : List G
  h : G
deriving DecidableEq, Repr

/-- A `gen_1`/`gen_n` pair (`PolyCommitmentSetupParameters`). -/
structure PolyCommitmentSetupParameters (G : Type) where
  gen_1 : MultiCommitmentSetupParameters G
  gen_n : MultiCommitmentSetupParameters G
deriving DecidableEq, Repr

/-- The sumcheck generator tiers (`SumCheckCommitmentSetupParameters`):
sizes 1, 3 and 4. -/
structure SumCheckCommitmentSetupParameters (G : Type) where
  gen_1 : MultiCommitmentSetupParameters G
  gen_3 : MultiCommitmentSetupParameters G
  gen_4 : MultiCommitmentSetupParameters G
deriving DecidableEq, Repr

/-- Setup parameters of `r1cs_satisfied_verify`. -/
structure R1CSSatisfiedSetupParameters (G : Type) where
  sc_params : SumCheckCommitmentSetupParameters G
  pc_params : PolyCommitmentSetupParameters G
deriving DecidableEq, Repr

/-- Setup parameters of the sparse-evaluation argument. -/
structure R1CSEvalsSetupParameters (G : Type) where
  ops_params : PolyCommitmentSetupParameters G
  mem_params : PolyCommitmentSetupParameters G
  derefs_params : PolyCommitmentSetupParameters G
deriving DecidableEq, Repr

/-- Setup parameters of `snark_verify`. -/
structure SetupParametersWithSpark (G : Type) where
  r1cs_satisfied_params : R1CSSatisfiedSetupParameters G
  r1cs_eval_params : R1CSEvalsSetupParameters G
deriving DecidableEq, Repr

/-- The public R1CS instance; the sparse matrices are modelled densely as
lists of rows. -/
structure R1CSInstance (F : Type) where
  a_matrix : List (List F)
  b_matrix : List (List F)
  c_matrix : List (List F)
  num_aux : ℕ
  num_inputs : ℕ
  num_constraints : ℕ
deriving DecidableEq, Repr

/-- Per-round opening proof of the committed sumcheck
(`SumCheckEvalProof`). -/
structure SumCheckEvalProof (F G : Type) where
  d_commit : G
  dot_cd_commit : G
  z : List F
  z_delta : F
  z_beta : F
deriving DecidableEq, Repr

/-- Committed sumcheck proof (`SumCheckProof`). -/
structure SumCheckProof (F G : Type) where
  comm_polys : List G
  comm_evals : List G
  proofs : List (SumCheckEvalProof F G)
deriving DecidableEq, Repr

/-- Schnorr-style knowledge proof (`KnowledgeProof`). -/
structure KnowledgeProof (F G : Type) where
  t_commit : G
  z1 : F
  z2 : F
deriving DecidableEq, Repr

/-- Product relation proof (`ProductProof`). -/
structure ProductProof (F G : Type) where
  commit_alpha : G
  commit_beta : G
  commit_delta : G
  z : List F
deriving DecidableEq, Repr

/-- Equality-of-committed-values proof (`EqProof`). -/
structure EqProof (F G : Type) where
  alpha : G
  z : F
deriving DecidableEq, Repr

/-- The committed `Az`, `Bz`, `Cz` claims (`KnowledgeProductCommit`). -/
structure KnowledgeProductCommit (G : Type) where
  va_commit : G
  vb_commit : G
  vc_commit : G
  prod_commit : G
deriving DecidableEq, Repr

/-- Knowledge and product proofs bundle (`KnowledgeProductProof`). -/
structure KnowledgeProductProof (F G : Type) where
  knowledge_proof : KnowledgeProof F G
  product_proof : ProductProof F G
deriving DecidableEq, Repr

/-- The recursive (bulletproof-style) inner-product proof: one `(L, R)`
commitment pair per halving round (`inner_product.rs`). -/
structure BulletInnerProductProof (G : Type) where
  l_vec : List G
  r_vec : List G
deriving DecidableEq, Repr

/-- Inner-product opening proof (`DotProductProof`). -/
structure DotProductProof (F G : Type) where
  inner_product_proof : BulletInnerProductProof G
  delta : G
  beta : G
  z1 : F
  z2 : F
deriving DecidableEq, Repr

/-- The R1CS-satisfaction proof (`R1CSSatProof`). -/
structure R1CSSatProof (F G : Type) where
  commit_witness : List G
  proof_one : SumCheckProof F G
  knowledge_product_commit : KnowledgeProductCommit G
  knowledge_product_proof : KnowledgeProductProof F G
  sc1_eq_proof : EqProof F G
  commit_ry : G
  proof_two : SumCheckProof F G
  sc2_eq_proof : EqProof F G
  product_proof : DotProductProof F G
deriving DecidableEq, Repr

/-- The NIZK proof (`NIZKProof`): a satisfaction proof plus the evaluation
point `r = (rx, ry)`. -/
structure NIZKProof (F G : Type) where
  r1cs_satisfied_proof : R1CSSatProof F G
  r : List F × List F
deriving DecidableEq, Repr

/-- One layer of the product-circuit proof (`LayerProductCircuitProof`). -/
structure LayerProof (F : Type) where
  polys : List (Poly F)
  claim_prod_left : List F
  claim_prod_right : List F
deriving DecidableEq, Repr

/-- Layered product-circuit proof (`ProductCircuitEvalProof`). -/
structure ProductCircuitEvalProof (F : Type) where
  layers_proof : List (LayerProof F)
  claim_dotp : List F × List F × List F
deriving DecidableEq, Repr

/-- Product-layer proof of the memory-checking argument
(`ProductLayerProof`). -/
structure ProductLayerProof (F : Type) where
  eval_row : F × List F × List F × F
  eval_col : F × List F × List F × F
  eval_dotp : List F × List F
  proof_ops : ProductCircuitEvalProof F
  proof_memory : ProductCircuitEvalProof F
deriving DecidableEq, Repr

/-- Hash-layer proof of the memory-checking argument (`HashLayerProof`). -/
structure HashLayerProof (F G : Type) where
  evals_derefs : List F × List F
  proof_derefs : DotProductProof F G
  evals_row : List F × List F × F
  evals_col : List F × List F × F
  evals_val : List F
  proof_ops : DotProductProof F G
  proof_mem : DotProductProof F G
deriving DecidableEq, Repr

/-- Sparse-evaluation proof (`R1CSEvalsProof`). -/
structure R1CSEvalsProof (F G : Type) where
  prod_layer_proof : ProductLayerProof F
  hash_layer_proof : HashLayerProof F G
  derefs_commit : List G
deriving DecidableEq, Repr

/-- The SNARK proof (`SNARKProof`). -/
structure SNARKProof (F G : Type) where
  r1cs_satisfied_proof : R1CSSatProof F G
  matrix_evals : F × F × F
  r1cs_evals_proof : R1CSEvalsProof F G
deriving DecidableEq, Repr

/-- The committed sparse encoding of the matrices (`EncodeCommit`). -/
structure EncodeCommit (G : Type) where
  n : ℕ
  m : ℕ
  ops_commit : List G
  mem_commit : List G
deriving DecidableEq, Repr

/-! ## The verifier (`verify.rs`) -/

variable (σ : Ser F G)

/-- Modelled from the spec (§4.2): the recursive bulletproof-style folding of
`bullet_inner_product_verify` (`inner_product.rs` is not in the provided
sources): each round absorbs the `(L, R)` pair, derives a folding challenge
and halves the public vector, the generators and the commitment; with no
rounds left a single-element vector remains and `(b, ĝ, Γ̂)` is returned. -/
def bullet_fold : List (G × G) → List G → G → List F → Transcript →
    Option ((F × G × G) × Transcript)
  | [], gens, gamma, b, t =>
    if b.length = 1 then some ((b.getD 0 0, gens.getD 0 0, gamma), t) else none
  | lr :: rest, gens, gamma, b, t =>
    let t1 := appendG σ t "L" lr.1
    let t2 := appendG σ t1 "R" lr.2
    let xq := challengeF (F := F) t2 "challenge_x"
    let x := xq.1
    let n2 := b.length / 2
    let bfold := List.zipWith (fun lo hi => x⁻¹ * lo + x * hi) (b.take n2) (b.drop n2)
    let gfold := List.zipWith (fun lo hi => x • lo + x⁻¹ • hi) (gens.take n2) (gens.drop n2)
    let gamma2 := (x * x) • lr.1 + gamma + (x⁻¹ * x⁻¹) • lr.2
    bullet_fold rest gfold gamma2 bfold xq.2

/-- Modelled from the spec (§4.2): `bullet_inner_product_verify`
(`inner_product.rs`, not in the provided sources). -/
def bullet_inner_product_verify (gens : List G) (proof : BulletInnerProductProof G)
    (gamma : G) (b : List F) (t : Transcript) : Option ((F × G × G) × Transcript) :=
  bullet_fold σ (proof.l_vec.zip proof.r_vec) gens gamma b t

/-- The public-input padding length `2^k − len − 1` (verify.rs:241–243);
`none` is the usize-underflow panic when `len + 1 > 2^k`. -/
def pad_sub (k len : ℕ) : Option ℕ :=
  if len + 1 ≤ k then some (k - len - 1) else none

/-- The structured coefficient vector of the per-round sumcheck evaluation
check: `coeffs[i] = w₀ + w₁·rⁱ` with `coeffs[0]` increased by `w₀` once
more (`sum_check_eval_verify`, lines 354–360). -/
def sc_coeffs (w0 w1 r : F) (size : ℕ) : List F :=
  match (List.range size).map (fun i => w0 + w1 * r ^ i) with
  | [] => []
  | a :: rest => (a + w0) :: rest

/-- `Σ_{i<size} z[i]·coeffs[i]`; aborts (Rust index panic) when `z` is
shorter than `size`. -/
def zdot (z coeffs : List F) (size : ℕ) : Option F :=
  if size ≤ z.length then
    some (((List.range size).map (fun i => z.getD i 0 * coeffs.getD i 0)).sum)
  else none

/-- `sum_check_eval_verify` (verify.rs:324): the per-round
evaluation-consistency check. -/
def sum_check_eval_verify (params_gen_1 params_gen_n : MultiCommitmentSetupParameters G)
    (commit_poly commit_eval commit_claim : G) (proof : SumCheckEvalProof F G)
    (r : F) (size : ℕ) (t : Transcript) : Option (Bool × Transcript) := do
  let wq := challengeVecF (F := F) t "combine_two_claims_to_one" 2
  let w0 := wq.1.getD 0 0
  let w1 := wq.1.getD 1 0
  let t := appendG σ wq.2 "Cx" commit_poly
  let commit_claim_value := w0 • commit_claim + w1 • commit_eval
  let t := appendG σ t "Cy" commit_claim_value
  let t := appendG σ t "delta" proof.d_commit
  let t := appendG σ t "beta" proof.dot_cd_commit
  let cq := challengeF (F := F) t "c"
  let c := cq.1
  let t := cq.2
  let coeffs ← match (List.range size).map (fun i => w0 + w1 * r ^ i) with
    | [] => none
    | a :: rest => some ((a + w0) :: rest)
  let lhs1 := c • commit_poly + proof.d_commit
  let rhs1 := poly_commit_vec params_gen_n.generators proof.z params_gen_n.h proof.z_delta
  let rs1 := decide (lhs1 = rhs1)
  let lhs2 := c • commit_claim_value + proof.dot_cd_commit
  let sum ← zdot proof.z coeffs size
  let rhs2 := poly_commit_vec params_gen_1.generators [sum] params_gen_1.h proof.z_beta
  let rs2 := decide (lhs2 = rhs2)
  some ((rs1 && rs2), t)

/-- The round loop of `sum_check_verify` (verify.rs:286–319): round `i`
absorbs the round's committed polynomial, derives the round challenge,
absorbs the current claim commitment and the round's evaluation commitment,
runs the per-round check, and chains the evaluation commitment into the
next round's claim. -/
def sum_check_rounds (params_gen_1 params_gen_n : MultiCommitmentSetupParameters G)
    (proof : SumCheckProof F G) (size : ℕ) :
    ℕ → ℕ → G → List F → Transcript → Option ((List F × G) × Transcript)
  | 0, _, commit_claim, rx, t => some ((rx, commit_claim), t)
  | k + 1, i, commit_claim, rx, t => do
    let commit_poly ← proof.comm_polys[i]?
    let commit_eval ← proof.comm_evals[i]?
    let prf ← proof.proofs[i]?
    let t := appendG σ t "comm_poly" commit_poly
    let rq := challengeF (F := F) t "challenge_nextround"
    let r_i := rq.1
    let t := appendG σ rq.2 "comm_claim_per_round" commit_claim
    let t := appendG σ t "comm_eval" commit_eval
    let res ← sum_check_eval_verify σ params_gen_1 params_gen_n commit_poly commit_eval
      commit_claim prf r_i size t
    let _ ← assertP (res.1 = true)
    sum_check_rounds params_gen_1 params_gen_n proof size k (i + 1) commit_eval
      (rx ++ [r_i]) res.2

/-- `sum_check_verify` (verify.rs:274). -/
def sum_check_verify (params_gen_1 params_gen_n : MultiCommitmentSetupParameters G)
    (proof : SumCheckProof F G) (commit_claim : G) (size num_rounds : ℕ)
    (t : Transcript) : Option ((List F × G) × Transcript) :=
  sum_check_rounds σ params_gen_1 params_gen_n proof size num_rounds 0 commit_claim [] t

/-- `knowledge_verify` (verify.rs:395). -/
def knowledge_verify (params : MultiCommitmentSetupParameters G)
    (proof : KnowledgeProof F G) (commit : G) (t : Transcript) : Bool × Transcript :=
  let t := appendG σ t "C" commit
  let t := appendG σ t "alpha" proof.t_commit
  let cq := challengeF (F := F) t "c"
  let c := cq.1
  let t := cq.2
  let lhs := poly_commit_vec params.generators [proof.z1] params.h proof.z2
  let rhs := c • commit + proof.t_commit
  (decide (lhs = rhs), t)

/-- `product_verify` (verify.rs:416). -/
def product_verify (params : MultiCommitmentSetupParameters G)
    (proof : ProductProof F G) (va_commit vb_commit prod_commit : G)
    (t : Transcript) : Option (Bool × Transcript) := do
  let z1 ← proof.z[0]?
  let z2 ← proof.z[1]?
  let z3 ← proof.z[2]?
  let z4 ← proof.z[3]?
  let z5 ← proof.z[4]?
  let t := appendG σ t "X" va_commit
  let t := appendG σ t "Y" vb_commit
  let t := appendG σ t "Z" prod_commit
  let t := appendG σ t "alpha" proof.commit_alpha
  let t := appendG σ t "beta" proof.commit_beta
  let t := appendG σ t "delta" proof.commit_delta
  let cq := challengeF (F := F) t "c"
  let c := cq.1
  let t := cq.2
  let rs1 := decide (proof.commit_alpha + c • va_commit =
    poly_commit_vec params.generators [z1] params.h z2)
  let rs2 := decide (proof.commit_beta + c • vb_commit =
    poly_commit_vec params.generators [z3] params.h z4)
  let rs3 := decide (proof.commit_delta + c • prod_commit =
    poly_commit_vec [va_commit] [z3] params.h z5)
  some ((rs1 && rs2 && rs3), t)

/-- `eq_verify` (verify.rs:462). -/
def eq_verify (params : MultiCommitmentSetupParameters G) (commit1 commit2 : G)
    (proof : EqProof F G) (t : Transcript) : Bool × Transcript :=
  let t := appendG σ t "C1" commit1
  let t := appendG σ t "C2" commit2
  let t := appendG σ t "alpha" proof.alpha
  let cq := challengeF (F := F) t "c"
  let c := cq.1
  let t := cq.2
  let commits := commit1 - commit2
  let lhs := proof.z • params.h
  let rhs := c • commits + proof.alpha
  (decide (lhs = rhs), t)

/-- `inner_product_verify` (verify.rs:485). -/
def inner_product_verify (params : PolyCommitmentSetupParameters G) (ry : List F)
    (commits_witness : List G) (commit_ry : G) (proof : DotProductProof F G)
    (t : Transcript) : Option (Bool × Transcript) := do
  let t := appendStr t "protocol-name" "polynomial evaluation proof"
  let size := ry.length
  let l_eq_ry := eval_eq (ry.take (size / 2))
  let r_eq_ry := eval_eq (ry.drop (size / 2))
  let commit_lz := poly_commit_vec commits_witness l_eq_ry params.gen_1.h 0
  let t := appendG σ t "Cx" commit_lz
  let t := appendG σ t "Cy" commit_ry
  let gamma := commit_lz + commit_ry
  let bq ← bullet_inner_product_verify σ params.gen_n.generators proof.inner_product_proof
    gamma r_eq_ry t
  let b_s := bq.1.1
  let g_hat := bq.1.2.1
  let gamma_hat := bq.1.2.2
  let t := appendG σ bq.2 "delta" proof.delta
  let t := appendG σ t "beta" proof.beta
  let cq := challengeF (F := F) t "challenge_tau"
  let c := cq.1
  let t := cq.2
  let g0 ← params.gen_1.generators[0]?
  let lhs := b_s • (c • gamma_hat + proof.beta) + proof.delta
  let rhs := proof.z1 • (g_hat + b_s • g0) + proof.z2 • params.gen_1.h
  some ((decide (lhs = rhs)), t)

/-- Phase one of `r1cs_satisfied_verify` (verify.rs:100–188): the `τ`
challenges, the degree-4 sumcheck, the knowledge/product proofs and the
first equality proof.  Returns `rx` and the transcript. -/
def r1cs_sat_phase_one (params : R1CSSatisfiedSetupParameters G)
    (r1cs : R1CSInstance F) (proof : R1CSSatProof F G) (t : Transcript) :
    Option (List F × Transcript) := do
  let t := appendGs σ t "poly_commitment" proof.commit_witness
  let num_rounds_x := log2 r1cs.num_constraints
  let tauq := challengeVecF (F := F) t "challenge_tau" num_rounds_x
  let tau := tauq.1
  let commit_claim := poly_commit_vec params.sc_params.gen_1.generators [(0 : F)]
    params.sc_params.gen_1.h 0
  let sc1 ← sum_check_verify σ params.sc_params.gen_1 params.sc_params.gen_4 proof.proof_one
    commit_claim 4 num_rounds_x tauq.2
  let rx := sc1.1.1
  let commit_eval_x := sc1.1.2
  let kv := knowledge_verify σ params.sc_params.gen_1
    proof.knowledge_product_proof.knowledge_proof
    proof.knowledge_product_commit.vc_commit sc1.2
  let _ ← assertP (kv.1 = true)
  let pv ← product_verify σ params.sc_params.gen_1 proof.knowledge_product_proof.product_proof
    proof.knowledge_product_commit.va_commit proof.knowledge_product_commit.vb_commit
    proof.knowledge_product_commit.prod_commit kv.2
  let _ ← assertP (pv.1 = true)
  let t := appendG σ pv.2 "comm_Az_claim" proof.knowledge_product_commit.va_commit
  let t := appendG σ t "comm_Bz_claim" proof.knowledge_product_commit.vb_commit
  let t := appendG σ t "comm_Cz_claim" proof.knowledge_product_commit.vc_commit
  let t := appendG σ t "comm_prod_Az_Bz_claims" proof.knowledge_product_commit.prod_commit
  let eval_rx_tau := eval_eq_x_y rx tau
  let claim_commit_phase_one := eval_rx_tau •
    (proof.knowledge_product_commit.prod_commit - proof.knowledge_product_commit.vc_commit)
  let eq1 := eq_verify σ params.sc_params.gen_1 claim_commit_phase_one commit_eval_x
    proof.sc1_eq_proof t
  let _ ← assertP (eq1.1 = true)
  some (rx, eq1.2)

/-- Phase two of `r1cs_satisfied_verify` (verify.rs:189–271): the
`r_a, r_b, r_c` challenges, the degree-3 sumcheck with `num_rounds_y`
rounds, the witness opening, the public-input padding and the final
equality proof.  Returns the final check result and `ry`. -/
def r1cs_sat_phase_two (params : R1CSSatisfiedSetupParameters G)
    (inputs : List F) (proof : R1CSSatProof F G) (matrix_evals : F × F × F)
    (num_rounds_y : ℕ) (t : Transcript) :
    Option ((Bool × List F) × Transcript) := do
  let raq := challengeF (F := F) t "challenege_Az"
  let r_a := raq.1
  let rbq := challengeF (F := F) raq.2 "challenege_Bz"
  let r_b := rbq.1
  let rcq := challengeF (F := F) rbq.2 "challenege_Cz"
  let r_c := rcq.1
  let claim_commit_two := r_a • proof.knowledge_product_commit.va_commit +
    r_b • proof.knowledge_product_commit.vb_commit +
    r_c • proof.knowledge_product_commit.vc_commit
  let sc2 ← sum_check_verify σ params.sc_params.gen_1 params.sc_params.gen_3 proof.proof_two
    claim_commit_two 3 num_rounds_y rcq.2
  let ry := sc2.1.1
  let commit_eval_y := sc2.1.2
  let ipv ← inner_product_verify σ params.pc_params (ry.drop 1) proof.commit_witness
    proof.commit_ry proof.product_proof sc2.2
  let _ ← assertP (ipv.1 = true)
  let padLen ← pad_sub (2 ^ (ry.drop 1).length) inputs.length
  let public_inputs := 1 :: (inputs ++ List.replicate padLen (0 : F))
  let eval_input_tau := evaluate_value public_inputs (ry.drop 1)
  let commit_input := poly_commit_vec params.pc_params.gen_1.generators [eval_input_tau]
    params.pc_params.gen_1.h 0
  let ry0 ← ry[0]?
  let commit_eval_z := (1 - ry0) • proof.commit_ry + ry0 • commit_input
  let claim_commit_phase_two :=
    (matrix_evals.1 * r_a + matrix_evals.2.1 * r_b + matrix_evals.2.2 * r_c) • commit_eval_z
  let eq2 := eq_verify σ params.pc_params.gen_1 claim_commit_phase_two commit_eval_y
    proof.sc2_eq_proof ipv.2
  let _ ← assertP (eq2.1 = true)
  some ((eq2.1, ry), eq2.2)

/-- `r1cs_satisfied_verify` (verify.rs:90): phase one followed by phase
two; `num_rounds_y = log2(next_power_of_two(max(num_aux, num_inputs))) + 1`
(verify.rs:105–106). -/
def r1cs_satisfied_verify (params : R1CSSatisfiedSetupParameters G)
    (r1cs : R1CSInstance F) (inputs : List F) (proof : R1CSSatProof F G)
    (matrix_evals : F × F × F) (t : Transcript) :
    Option ((Bool × List F × List F) × Transcript) := do
  let tpow := nextPow2 (max r1cs.num_aux r1cs.num_inputs)
  let num_rounds_y := log2 tpow + 1
  let p1 ← r1cs_sat_phase_one σ params r1cs proof t
  let p2 ← r1cs_sat_phase_two σ params inputs proof matrix_evals num_rounds_y p1.2
  some ((p2.1.1, p1.1, p2.1.2), p2.2)

/-- The body of `nizk_verify` (verify.rs:27) as a function of the starting
transcript: evaluate the three matrix MLEs at the proof's point and
delegate to `r1cs_satisfied_verify`.  The final transcript (with its
challenge log) is returned alongside the `Result` so that determinism of
the challenge stream is expressible. -/
def nizk_verify_with_transcript (params : R1CSSatisfiedSetupParameters G)
    (r1cs : R1CSInstance F) (inputs : List F) (proof : NIZKProof F G)
    (t : Transcript) : Option (Except SynthesisError Bool × Transcript) := do
  let eval_a_r := evaluate_mle r1cs.a_matrix proof.r.1 proof.r.2
  let eval_b_r := evaluate_mle r1cs.b_matrix proof.r.1 proof.r.2
  let eval_c_r := evaluate_mle r1cs.c_matrix proof.r.1 proof.r.2
  let out ← r1cs_satisfied_verify σ params r1cs inputs proof.r1cs_satisfied_proof
    (eval_a_r, eval_b_r, eval_c_r) t
  some (Except.ok out.1.1, out.2)

/-- `nizk_verify` (verify.rs:27): the public NIZK entry point; a fresh
transcript is created from the fixed label.  The value is the
`Result<bool, SynthesisError>` returned to the caller; `none` is a
process-fatal panic. -/
def nizk_verify (params : R1CSSatisfiedSetupParameters G) (r1cs : R1CSInstance F)
    (inputs : List F) (proof : NIZKProof F G) : Option (Except SynthesisError Bool) :=
  (nizk_verify_with_transcript σ params r1cs inputs proof
    (Transcript.new (lbl "Spartan NIZK proof"))).map Prod.fst

/-- The round loop of `sum_check_cubic_verify` (verify.rs:865–873): absorb
the round polynomial, derive the round challenge, and replace the running
claim by the polynomial's value at the challenge. -/
def cubic_loop : List (Poly F) → F → List F → Transcript → (List F × F) × Transcript
  | [], claim, r, t => ((r, claim), t)
  | p :: rest, _claim, r, t =>
    let t1 := appendFs σ t "comm_poly" p.coeffs
    let rq := challengeF (F := F) t1 "challenge_nextround"
    cubic_loop rest (p.evaluate rq.1) (r ++ [rq.1]) rq.2

/-- `sum_check_cubic_verify` (verify.rs:855). -/
def sum_check_cubic_verify (proof_poly : List (Poly F)) (num_rounds : ℕ)
    (claim : F) (t : Transcript) : Option ((List F × F) × Transcript) := do
  let _ ← assertP (proof_poly.length = num_rounds)
  some (cubic_loop σ proof_poly claim [] t)

/-- The absorption loop over a layer's left/right claims
(verify.rs:782–791). -/
def append_claims_lr : List (F × F) → Transcript → Transcript
  | [], t => t
  | p :: rest, t =>
    let t1 := appendF σ t "claim_prod_left" p.1
    let t2 := appendF σ t1 "claim_prod_right" p.2
    append_claims_lr rest t2

/-- The final-layer loop accumulating the dot-product contribution to the
expected value (verify.rs:804–822): absorb `row/col/val` claims and add
`coeffs[off+i]·row[i]·col[i]·val[i]`. -/
def dotp_expected_loop (coeffs row col val : List F) (off : ℕ) :
    ℕ → ℕ → F → Transcript → Option (F × Transcript)
  | 0, _, acc, t => some (acc, t)
  | k + 1, i, acc, t => do
    let rrow ← row[i]?
    let rcol ← col[i]?
    let rval ← val[i]?
    let t1 := appendF σ t "claim_dotp_row" rrow
    let t2 := appendF σ t1 "claim_dotp_col" rcol
    let t3 := appendF σ t2 "claim_dotp_val" rval
    let cf ← coeffs[off + i]?
    dotp_expected_loop coeffs row col val off k (i + 1) (acc + cf * rrow * rcol * rval) t3

/-- The final-layer reduction of dot-product claims under `r_layer`
(verify.rs:833–846). -/
def dotp_reduce (r_layer : F) (row col val : List F) : ℕ → ℕ → List F → List F
  | 0, _, acc => acc
  | k + 1, i, acc =>
    let cr := row.getD (2 * i) 0 + r_layer * (row.getD (2 * i + 1) 0 - row.getD (2 * i) 0)
    let cc := col.getD (2 * i) 0 + r_layer * (col.getD (2 * i + 1) 0 - col.getD (2 * i) 0)
    let cv := val.getD (2 * i) 0 + r_layer * (val.getD (2 * i + 1) 0 - val.getD (2 * i) 0)
    dotp_reduce r_layer row col val k (i + 1) (acc ++ [cr, cc, cv])

/-- One layer of `product_circuit_eval_verify` (the body of the loop at
verify.rs:754–850).  State: the claims under verification, the reduced
dot-product claims, and the accumulated challenge vector. -/
def product_circuit_layer (claims_dotp_circuit : List F)
    (claim_dotp : List F × List F × List F) (lp : LayerProof F) (isLast : Bool)
    (num_rounds prodLen : ℕ) (claims_to_verify dotps rands : List F)
    (t : Transcript) : Option ((List F × List F × List F) × Transcript) := do
  let ctv := if isLast then claims_to_verify ++ claims_dotp_circuit else claims_to_verify
  let cq := challengeVecF (F := F) t "rand_coeffs_next_layer" ctv.length
  let coeffs := cq.1
  let claim : F := (List.zipWith (fun a b => a * b) ctv coeffs).sum
  let sc ← sum_check_cubic_verify σ lp.polys num_rounds claim cq.2
  let r := sc.1.1
  let claim_final := sc.1.2
  let _ ← assertP (lp.claim_prod_left.length = lp.claim_prod_right.length)
  let _ ← assertP (lp.claim_prod_left.length = prodLen)
  let t := append_claims_lr σ (lp.claim_prod_left.zip lp.claim_prod_right) sc.2
  let _ ← assertP (rands.length = r.length)
  let eqv := (List.zipWith (fun a b => a * b + (1 - a) * (1 - b)) r rands).prod
  let claim_expected_prod : F :=
    ((List.range lp.claim_prod_left.length).map (fun i =>
      coeffs.getD i 0 * (lp.claim_prod_left.getD i 0 * lp.claim_prod_right.getD i 0 * eqv))).sum
  let ce ← cond isLast
    (dotp_expected_loop σ coeffs claim_dotp.1 claim_dotp.2.1 claim_dotp.2.2
      lp.claim_prod_left.length claim_dotp.1.length 0 claim_expected_prod t)
    (some (claim_expected_prod, t))
  let _ ← assertP (ce.1 = claim_final)
  let rq := challengeF (F := F) ce.2 "challenge_r_layer"
  let r_layer := rq.1
  let newClaims := List.zipWith (fun l rr => l + r_layer * (rr - l))
    lp.claim_prod_left lp.claim_prod_right
  let newDotps := if isLast then
      dotp_reduce r_layer claim_dotp.1 claim_dotp.2.1 claim_dotp.2.2
        (claim_dotp.1.length / 2) 0 dotps
    else dotps
  some ((newClaims, newDotps, r_layer :: r), rq.2)

/-- The layer loop of `product_circuit_eval_verify`; the layer index is also
the round count of the layer's cubic sumcheck. -/
def pcev_loop (claims_dotp_circuit : List F) (claim_dotp : List F × List F × List F)
    (prodLen layer_num : ℕ) :
    List (LayerProof F) → ℕ → List F × List F × List F → Transcript →
    Option ((List F × List F × List F) × Transcript)
  | [], _, st, t => some (st, t)
  | lp :: rest, i, st, t => do
    let out ← product_circuit_layer σ claims_dotp_circuit claim_dotp lp
      (decide (i = layer_num - 1)) i prodLen st.1 st.2.1 st.2.2 t
    pcev_loop claims_dotp_circuit claim_dotp prodLen layer_num rest (i + 1) out.1 out.2

/-- `product_circuit_eval_verify` (verify.rs:739). -/
def product_circuit_eval_verify (proof : ProductCircuitEvalProof F)
    (claims_prod_circuit claims_dotp_circuit : List F) (n : ℕ) (t : Transcript) :
    Option ((List F × List F × List F) × Transcript) := do
  let layer_num := log2 n
  let _ ← assertP (proof.layers_proof.length = layer_num)
  pcev_loop σ claims_dotp_circuit proof.claim_dotp claims_prod_circuit.length layer_num
    proof.layers_proof 0 (claims_prod_circuit, [], []) t

/-- The dot-product claim loop of `product_layer_verify`
(verify.rs:692–704): check `left[i] + right[i] = evals[i]` and absorb
both claims. -/
def dotp_claims_loop (lefts rights evals : List F) :
    ℕ → ℕ → Transcript → Option Transcript
  | 0, _, t => some t
  | k + 1, i, t => do
    let l ← lefts[i]?
    let rr ← rights[i]?
    let ev ← evals[i]?
    let _ ← assertP (l + rr = ev)
    let t1 := appendF σ t "claim_eval_dotp_left" l
    let t2 := appendF σ t1 "claim_eval_dotp_right" rr
    dotp_claims_loop lefts rights evals k (i + 1) t2

/-- The interleaved `claims_dotp_circuit` list built by the loop at
verify.rs:702–703. -/
def interleave2 : List F → List F → List F
  | [], _ => []
  | _ :: _, [] => []
  | a :: l1, b :: l2 => a :: b :: interleave2 l1 l2

/-- The length checks of `product_layer_verify` (verify.rs:643–649). -/
def plv_length_checks (proof : ProductLayerProof F) (evals : List F) : Option Unit := do
  let _ ← assertP (proof.eval_row.2.1.length = 3)
  let _ ← assertP (proof.eval_row.2.2.1.length = 3)
  let _ ← assertP (proof.eval_col.2.1.length = 3)
  let _ ← assertP (proof.eval_col.2.2.1.length = 3)
  let _ ← assertP (proof.eval_dotp.1.length = 3)
  let _ ← assertP (proof.eval_dotp.2.length = 3)
  let _ ← assertP (evals.length = 3)
  some ()

/-- The multiset identity check and absorption for one memory
(verify.rs:651–689, used once for the row memory and once for the col
memory): `init · ∏ write = ∏ read · audit`. -/
def plv_memory_checks (side : String) (claims : F × List F × List F × F)
    (t : Transcript) : Option Transcript := do
  let init := claims.1
  let read_list := claims.2.1
  let write_list := claims.2.2.1
  let audit := claims.2.2.2
  let read := read_list.prod
  let write := write_list.prod
  let _ ← assertP (init * write = read * audit)
  let t := appendF σ t ("claim_" ++ side ++ "_eval_init") init
  let t := appendFs σ t ("claim_" ++ side ++ "_eval_read") read_list
  let t := appendFs σ t ("claim_" ++ side ++ "_eval_write") write_list
  let t := appendF σ t ("claim_" ++ side ++ "_eval_audit") audit
  some t

/-- `product_layer_verify` (verify.rs:621).  The result is the 6-tuple
`(claims_ops, claims_ops_dotp, ops_rands, claims_mem, claims_mem_dotp,
mem_rands)`. -/
def product_layer_verify (proof : ProductLayerProof F) (n m : ℕ)
    (evals : List F) (t : Transcript) :
    Option ((List F × List F × List F × List F × List F × List F) × Transcript) := do
  let t := appendStr t "protocol-name" "Sparse polynomial product layer proof"
  let _ ← plv_length_checks proof evals
  let tr ← plv_memory_checks σ "row" proof.eval_row t
  let tc ← plv_memory_checks σ "col" proof.eval_col tr
  let t2 ← dotp_claims_loop σ proof.eval_dotp.1 proof.eval_dotp.2 evals
    proof.eval_dotp.1.length 0 tc
  let claims_dotp_circuit := interleave2 proof.eval_dotp.1 proof.eval_dotp.2
  let claims_prod_circuit := proof.eval_row.2.1 ++ proof.eval_row.2.2.1 ++
    proof.eval_col.2.1 ++ proof.eval_col.2.2.1
  let po ← product_circuit_eval_verify σ proof.proof_ops claims_prod_circuit
    claims_dotp_circuit n t2
  let pm ← product_circuit_eval_verify σ proof.proof_memory
    [proof.eval_row.1, proof.eval_row.2.2.2, proof.eval_col.1, proof.eval_col.2.2.2] [] m po.2
  some ((po.1.1, po.1.2.1, po.1.2.2, pm.1.1, pm.1.2.1, pm.1.2.2), pm.2)

/-- The hash recomputed by the memory-checking argument (spec §4.6):
`addr·γ1² + value·γ1 + timestamp − γ2`. -/
def mem_hash (gamma1 gamma2 addr value timestamp : F) : F :=
  addr * gamma1 * gamma1 + value * gamma1 + timestamp - gamma2

/-- The read-hash loop of `behind_verify_for_timestamp`
(verify.rs:1105–1111). -/
def hash_reads_loop (claim_read_list eval_addr eval_val eval_read_ts : List F)
    (gamma1 gamma2 : F) : ℕ → ℕ → Option Unit
  | 0, _ => some ()
  | k + 1, i => do
    let a ← eval_addr[i]?
    let v ← eval_val[i]?
    let ts ← eval_read_ts[i]?
    let cl ← claim_read_list[i]?
    let _ ← assertP (cl = a * gamma1 * gamma1 + v * gamma1 + ts - gamma2)
    hash_reads_loop claim_read_list eval_addr eval_val eval_read_ts gamma1 gamma2 k (i + 1)

/-- The write-hash loop of `behind_verify_for_timestamp`
(verify.rs:1113–1119); the write timestamp is the read timestamp plus
one. -/
def hash_writes_loop (claim_write_list eval_addr eval_val eval_read_ts : List F)
    (gamma1 gamma2 : F) : ℕ → ℕ → Option Unit
  | 0, _ => some ()
  | k + 1, i => do
    let a ← eval_addr[i]?
    let v ← eval_val[i]?
    let ts ← eval_read_ts[i]?
    let cl ← claim_write_list[i]?
    let _ ← assertP (cl = a * gamma1 * gamma1 + v * gamma1 + (ts + 1) - gamma2)
    hash_writes_loop claim_write_list eval_addr eval_val eval_read_ts gamma1 gamma2 k (i + 1)

/-- The address of the initial/audit memory row evaluated at the random
point: `Σᵢ randsᵢ · 2^(len−i−1)` (verify.rs:1094–1098). -/
def eval_init_addr_at (rands_mem : List F) : F :=
  ((List.range rands_mem.length).map
    (fun i => rands_mem.getD i 0 * (2 : F) ^ (rands_mem.length - i - 1))).sum

/-- `behind_verify_for_timestamp` (verify.rs:1080). -/
def behind_verify_for_timestamp (rands : List F × List F)
    (claims : F × List F × List F × F) (r : List F)
    (eval_ops_val eval_addr_ops_list eval_read_ts_list : List F)
    (eval_audit_ts_val : F) (gamma : F × F) : Option Bool := do
  let rands_mem := rands.2
  let gamma1 := gamma.1
  let gamma2 := gamma.2
  let claim_init := claims.1
  let claim_read_list := claims.2.1
  let claim_write_list := claims.2.2.1
  let claim_audit := claims.2.2.2
  let eval_init_addr : F := eval_init_addr_at rands_mem
  let eval_init_val := eval_eq_x_y r rands_mem
  let hash_init_at_rand_mem :=
    eval_init_addr * gamma1 * gamma1 + eval_init_val * gamma1 - gamma2
  let _ ← assertP (claim_init = hash_init_at_rand_mem)
  let _ ← hash_reads_loop claim_read_list eval_addr_ops_list eval_ops_val
    eval_read_ts_list gamma1 gamma2 eval_addr_ops_list.length 0
  let _ ← hash_writes_loop claim_write_list eval_addr_ops_list eval_ops_val
    eval_read_ts_list gamma1 gamma2 eval_addr_ops_list.length 0
  let eval_audit_addr := eval_init_addr
  let eval_audit_val := eval_init_val
  let hash_audit_at_rand_mem :=
    eval_audit_addr * gamma1 * gamma1 + eval_audit_val * gamma1 + eval_audit_ts_val - gamma2
  let _ ← assertP (claim_audit = hash_audit_at_rand_mem)
  some true

/-- The descending `bound_poly_var_bot` loop (verify.rs:919–921 and
similar): the challenges are applied from the last to the first. -/
def bind_vars_bot (evals : List F) (cs : List F) : List F :=
  cs.foldr (fun c q => bound_poly_var_bot q c) evals

/-- The dot-product consistency checks of `hash_layer_verify`
(verify.rs:949–953). -/
def dotp_consistency (claims_dotp row col val : List F) : ℕ → ℕ → Option Unit
  | 0, _ => some ()
  | k + 1, i => do
    let _ ← assertP (claims_dotp.getD (i * 3) 0 = row.getD i 0)
    let _ ← assertP (claims_dotp.getD (i * 3 + 1) 0 = col.getD i 0)
    let _ ← assertP (claims_dotp.getD (i * 3 + 2) 0 = val.getD i 0)
    dotp_consistency claims_dotp row col val k (i + 1)

/-- The derefs joint-evaluation segment of `hash_layer_verify`
(verify.rs:900–946). -/
def hl_part_derefs (params : R1CSEvalsSetupParameters G) (proof : HashLayerProof F G)
    (ops_rands : List F) (derefs_commit : List G) (t : Transcript) : Option Transcript := do
  let _ ← assertP (proof.evals_derefs.1.length = proof.evals_derefs.2.length)
  let _ ← assertP (proof.evals_derefs.1.length = 3)
  let evals0 := proof.evals_derefs.1 ++ proof.evals_derefs.2
  let evals := evals0 ++ List.replicate (nextPow2 evals0.length - evals0.length) (0 : F)
  let t := appendStr t "protocol-name" "Derefs evaluation proof"
  let t := appendFs σ t "evals_ops_val" evals
  let csq := challengeVecF (F := F) t "challenge_combine_n_to_one" (log2 evals.length)
  let cs := csq.1
  let poly_evals := bind_vars_bot evals cs
  let _ ← assertP (poly_evals.length = 1)
  let claim_eval := poly_evals.getD 0 0
  let rs := cs ++ ops_rands
  let t := appendF σ csq.2 "joint_claim_eval" claim_eval
  let claim_eval_commit := poly_commit_vec params.derefs_params.gen_1.generators
    [claim_eval] params.derefs_params.gen_1.h 0
  let ip1 ← inner_product_verify σ params.derefs_params rs derefs_commit
    claim_eval_commit proof.proof_derefs t
  let _ ← assertP (ip1.1 = true)
  some ip1.2

/-- The dot-product claim consistency segment of `hash_layer_verify`
(verify.rs:947–953). -/
def hl_dotp_checks (proof : HashLayerProof F G) (claims_dotp : List F) : Option Unit := do
  let _ ← assertP (proof.evals_val.length = 3)
  let _ ← dotp_consistency claims_dotp proof.evals_derefs.1 proof.evals_derefs.2
    proof.evals_val 3 0
  some ()

/-- The ops joint-evaluation segment of `hash_layer_verify`
(verify.rs:955–1006). -/
def hl_part_ops (params : R1CSEvalsSetupParameters G) (proof : HashLayerProof F G)
    (ops_rands : List F) (encode_commit : EncodeCommit G) (t : Transcript) :
    Option Transcript := do
  let evals_ops0 := proof.evals_row.1 ++ proof.evals_row.2.1 ++
    proof.evals_col.1 ++ proof.evals_col.2.1 ++ proof.evals_val
  let evals_ops := evals_ops0 ++
    List.replicate (nextPow2 evals_ops0.length - evals_ops0.length) (0 : F)
  let t := appendFs σ t "claim_evals_ops" evals_ops
  let csq2 := challengeVecF (F := F) t "challenge_combine_n_to_one" (log2 evals_ops.length)
  let cs_ops := csq2.1
  let poly_evals_ops := bind_vars_bot evals_ops cs_ops
  let _ ← assertP (poly_evals_ops.length = 1)
  let claim_eval_ops := poly_evals_ops.getD 0 0
  let rs_ops := cs_ops ++ ops_rands
  let t := appendF σ csq2.2 "joint_claim_eval_ops" claim_eval_ops
  let claim_eval_commit2 := poly_commit_vec params.ops_params.gen_1.generators
    [claim_eval_ops] params.ops_params.gen_1.h 0
  let ip2 ← inner_product_verify σ params.ops_params rs_ops encode_commit.ops_commit
    claim_eval_commit2 proof.proof_ops t
  let _ ← assertP (ip2.1 = true)
  some ip2.2

/-- The mem joint-evaluation segment of `hash_layer_verify`
(verify.rs:1007–1049). -/
def hl_part_mem (params : R1CSEvalsSetupParameters G) (proof : HashLayerProof F G)
    (mem_rands : List F) (encode_commit : EncodeCommit G) (t : Transcript) :
    Option Transcript := do
  let evals_mem := [proof.evals_row.2.2, proof.evals_col.2.2]
  let t := appendFs σ t "claim_evals_mem" evals_mem
  let csq3 := challengeVecF (F := F) t "challenge_combine_two_to_one" (log2 evals_mem.length)
  let cs_mem := csq3.1
  let poly_evals_mem := bind_vars_bot evals_mem cs_mem
  let _ ← assertP (poly_evals_mem.length = 1)
  let claim_eval_mem := poly_evals_mem.getD 0 0
  let rs_mem := cs_mem ++ mem_rands
  let t := appendF σ csq3.2 "joint_claim_eval_mem" claim_eval_mem
  let claim_eval_commit3 := poly_commit_vec params.mem_params.gen_1.generators
    [claim_eval_mem] params.mem_params.gen_1.h 0
  let ip3 ← inner_product_verify σ params.mem_params rs_mem encode_commit.mem_commit
    claim_eval_commit3 proof.proof_mem t
  let _ ← assertP (ip3.1 = true)
  some ip3.2

/-- The timestamp-hash segment of `hash_layer_verify`
(verify.rs:1050–1076): `behind_verify_for_timestamp` for the row and the
col memory. -/
def hl_part_ts (proof : HashLayerProof F G) (r : List F × List F)
    (rands : List F × List F) (gamma : F × F)
    (claims_row claims_col : F × List F × List F × F) : Option Unit := do
  let bv1 ← behind_verify_for_timestamp rands claims_row r.1 proof.evals_derefs.1
    proof.evals_row.1 proof.evals_row.2.1 proof.evals_row.2.2 gamma
  let _ ← assertP (bv1 = true)
  let bv2 ← behind_verify_for_timestamp rands claims_col r.2 proof.evals_derefs.2
    proof.evals_col.1 proof.evals_col.2.1 proof.evals_col.2.2 gamma
  let _ ← assertP (bv2 = true)
  some ()

/-- `hash_layer_verify` (verify.rs:878). -/
def hash_layer_verify (params : R1CSEvalsSetupParameters G)
    (proof : HashLayerProof F G) (r : List F × List F) (rands : List F × List F)
    (gamma : F × F) (claims_row claims_col : F × List F × List F × F)
    (claims_dotp : List F) (encode_commit : EncodeCommit G) (derefs_commit : List G)
    (t : Transcript) : Option Transcript := do
  let t := appendStr t "protocol-name" "Sparse polynomial hash layer proof"
  let _ ← assertP (claims_dotp.length = 9)
  let t1 ← hl_part_derefs σ params proof rands.1 derefs_commit t
  let _ ← hl_dotp_checks proof claims_dotp
  let t2 ← hl_part_ops σ params proof rands.1 encode_commit t1
  let t3 ← hl_part_mem σ params proof rands.2 encode_commit t2
  let _ ← hl_part_ts proof r rands gamma claims_row claims_col
  some t3

/-- `sparse_poly_eval_verify` (verify.rs:539). -/
def sparse_poly_eval_verify (params : R1CSEvalsSetupParameters G)
    (proof : R1CSEvalsProof F G) (encode_commit : EncodeCommit G)
    (r : List F × List F) (evals : F × F × F) (t : Transcript) :
    Option (Bool × Transcript) := do
  let t := appendStr t "protocol-name" "sparse polynomial evaluation proof"
  let eval_a_r := evals.1
  let eval_b_r := evals.2.1
  let eval_c_r := evals.2.2
  let rxy := equalize_length r.1 r.2
  let rx := rxy.1
  let ry := rxy.2
  let n := encode_commit.n
  let m := encode_commit.m
  let _ ← assertP (2 ^ rx.length = m)
  let t := appendGs σ t "comm_poly_row_col_ops_val" proof.derefs_commit
  let gq := challengeVecF (F := F) t "challenge_gamma_hash" 2
  let gamma := gq.1
  let plv ← product_layer_verify σ proof.prod_layer_proof n m
    [eval_a_r, eval_b_r, eval_c_r] gq.2
  let claims_ops := plv.1.1
  let claims_ops_dotp := plv.1.2.1
  let ops_rands := plv.1.2.2.1
  let claims_mem := plv.1.2.2.2.1
  let mem_rands := plv.1.2.2.2.2.2
  let _ ← assertP (claims_mem.length = 4)
  let _ ← assertP (claims_ops.length = 12)
  let _ ← assertP (claims_ops_dotp.length = 9)
  let claims_ops_row_read := claims_ops.take 3
  let claims_ops_row_write := (claims_ops.drop 3).take 3
  let claims_ops_col_read := (claims_ops.drop 6).take 3
  let claims_ops_col_write := (claims_ops.drop 9).take 3
  let t2 ← hash_layer_verify σ params proof.hash_layer_proof (rx, ry)
    (ops_rands, mem_rands) (gamma.getD 0 0, gamma.getD 1 0)
    (claims_mem.getD 0 0, claims_ops_row_read, claims_ops_row_write, claims_mem.getD 1 0)
    (claims_mem.getD 2 0, claims_ops_col_read, claims_ops_col_write, claims_mem.getD 3 0)
    claims_ops_dotp encode_commit proof.derefs_commit plv.2
  some (true, t2)

/-- The body of `snark_verify` (verify.rs:52) as a function of the starting
transcript. -/
def snark_verify_with_transcript (params : SetupParametersWithSpark G)
    (r1cs : R1CSInstance F) (inputs : List F) (proof : SNARKProof F G)
    (encode_commit : EncodeCommit G) (t : Transcript) :
    Option (Except SynthesisError Unit × Transcript) := do
  let rs ← r1cs_satisfied_verify σ params.r1cs_satisfied_params r1cs inputs
    proof.r1cs_satisfied_proof proof.matrix_evals t
  let result := rs.1.1
  let rx := rs.1.2.1
  let ry := rs.1.2.2
  let _ ← assertP (result = true)
  let t := appendF σ rs.2 "Ar_claim" proof.matrix_evals.1
  let t := appendF σ t "Br_claim" proof.matrix_evals.2.1
  let t := appendF σ t "Cr_claim" proof.matrix_evals.2.2
  let sp ← sparse_poly_eval_verify σ params.r1cs_eval_params proof.r1cs_evals_proof
    encode_commit (rx, ry) proof.matrix_evals t
  let _ ← assertP (sp.1 = true)
  some (Except.ok (), sp.2)

/-- `snark_verify` (verify.rs:52): the public SNARK entry point; a fresh
transcript is created from the fixed label. -/
def snark_verify (params : SetupParametersWithSpark G) (r1cs : R1CSInstance F)
    (inputs : List F) (proof : SNARKProof F G) (encode_commit : EncodeCommit G) :
    Option (Except SynthesisError Unit) :=
  (snark_verify_with_transcript σ params r1cs inputs proof encode_commit
    (Transcript.new (lbl "Spartan SNARK proof"))).map Prod.fst

/-! ## Claim-described reference definitions

These follow the wording of the specification claims and are compared
against the source translations above. -/

/-- The sumcheck round loop exactly as the specification describes it
(spec §4.3 / claim C4): "absorb the round's committed polynomial and its
evaluation commitment; derive challenge `rᵢ`; run the per-round
evaluation-consistency check; accumulate `rᵢ`; the round's evaluation
commitment becomes next round's claim". -/
def sum_check_rounds_claimed (params_gen_1 params_gen_n : MultiCommitmentSetupParameters G)
    (proof : SumCheckProof F G) (size : ℕ) :
    ℕ → ℕ → G → List F → Transcript → Option ((List F × G) × Transcript)
  | 0, _, commit_claim, rx, t => some ((rx, commit_claim), t)
  | k + 1, i, commit_claim, rx, t => do
    let commit_poly ← proof.comm_polys[i]?
    let commit_eval ← proof.comm_evals[i]?
    let prf ← proof.proofs[i]?
    let t1 := appendG σ t "comm_poly" commit_poly
    let t2 := appendG σ t1 "comm_eval" commit_eval
    let rq := challengeF (F := F) t2 "challenge_nextround"
    let res ← sum_check_eval_verify σ params_gen_1 params_gen_n commit_poly commit_eval
      commit_claim prf rq.1 size rq.2
    let _ ← assertP (res.1 = true)
    sum_check_rounds_claimed params_gen_1 params_gen_n proof size k (i + 1) commit_eval
      (rx ++ [rq.1]) res.2

/-- The sumcheck verifier as the specification claim describes it (C4). -/
def sum_check_verify_claimed (params_gen_1 params_gen_n : MultiCommitmentSetupParameters G)
    (proof : SumCheckProof F G) (commit_claim : G) (size num_rounds : ℕ)
    (t : Transcript) : Option ((List F × G) × Transcript) :=
  sum_check_rounds_claimed σ params_gen_1 params_gen_n proof size num_rounds 0
    commit_claim [] t

/-- One product-circuit layer exactly as the specification describes it
(spec §4.5 / claim C6): extend by the dot-product claims on the final
layer, draw one coefficient per claim and form the target, run the cubic
sumcheck, recompute the expected value
`Σᵢ coeffᵢ·left_claimᵢ·right_claimᵢ·eq(r, accumulated_challenges)` plus the
final-layer `coeff·row·col·val` terms, reject on mismatch, draw `r_layer`,
reduce each claim to `left + r_layer·(right − left)` and prepend `r_layer`
to the layer's challenge vector. -/
def product_circuit_layer_claim (claims_dotp_circuit : List F)
    (claim_dotp : List F × List F × List F) (lp : LayerProof F) (isLast : Bool)
    (num_rounds prodLen : ℕ) (claims_to_verify dotps rands : List F)
    (t : Transcript) : Option ((List F × List F × List F) × Transcript) := do
  let ctv := if isLast then claims_to_verify ++ claims_dotp_circuit else claims_to_verify
  let cq := challengeVecF (F := F) t "rand_coeffs_next_layer" ctv.length
  let coeffs := cq.1
  let target : F := (List.zipWith (fun a b => a * b) ctv coeffs).sum
  let sc ← sum_check_cubic_verify σ lp.polys num_rounds target cq.2
  let r := sc.1.1
  let _ ← assertP (lp.claim_prod_left.length = lp.claim_prod_right.length)
  let _ ← assertP (lp.claim_prod_left.length = prodLen)
  let t := append_claims_lr σ (lp.claim_prod_left.zip lp.claim_prod_right) sc.2
  let _ ← assertP (rands.length = r.length)
  let expected_prod : F :=
    ((List.range lp.claim_prod_left.length).map (fun i =>
      coeffs.getD i 0 * (lp.claim_prod_left.getD i 0 * lp.claim_prod_right.getD i 0 *
        eval_eq_x_y r rands))).sum
  let ce ← cond isLast
    (dotp_expected_loop σ coeffs claim_dotp.1 claim_dotp.2.1 claim_dotp.2.2
      lp.claim_prod_left.length claim_dotp.1.length 0 expected_prod t)
    (some (expected_prod, t))
  let _ ← assertP (ce.1 = sc.1.2)
  let rq := challengeF (F := F) ce.2 "challenge_r_layer"
  let reduced := List.zipWith (fun l rr => l + rq.1 * (rr - l))
    lp.claim_prod_left lp.claim_prod_right
  let reduced_dotp := if isLast then
      dotp_reduce rq.1 claim_dotp.1 claim_dotp.2.1 claim_dotp.2.2
        (claim_dotp.1.length / 2) 0 dotps
    else dotps
  some ((reduced, reduced_dotp, rq.1 :: r), rq.2)

/-- The product-circuit layer body generalized over the per-layer sumcheck
routine (claim C7: the code always instantiates it with the cubic
sumcheck). -/
def product_circuit_layer_gen
    (scv : List (Poly F) → ℕ → F → Transcript → Option ((List F × F) × Transcript))
    (claims_dotp_circuit : List F) (claim_dotp : List F × List F × List F)
    (lp : LayerProof F) (isLast : Bool) (num_rounds prodLen : ℕ)
    (claims_to_verify dotps rands : List F) (t : Transcript) :
    Option ((List F × List F × List F) × Transcript) := do
  let ctv := if isLast then claims_to_verify ++ claims_dotp_circuit else claims_to_verify
  let cq := challengeVecF (F := F) t "rand_coeffs_next_layer" ctv.length
  let coeffs := cq.1
  let claim : F := (List.zipWith (fun a b => a * b) ctv coeffs).sum
  let sc ← scv lp.polys num_rounds claim cq.2
  let r := sc.1.1
  let claim_final := sc.1.2
  let _ ← assertP (lp.claim_prod_left.length = lp.claim_prod_right.length)
  let _ ← assertP (lp.claim_prod_left.length = prodLen)
  let t := append_claims_lr σ (lp.claim_prod_left.zip lp.claim_prod_right) sc.2
  let _ ← assertP (rands.length = r.length)
  let eqv := (List.zipWith (fun a b => a * b + (1 - a) * (1 - b)) r rands).prod
  let claim_expected_prod : F :=
    ((List.range lp.claim_prod_left.length).map (fun i =>
      coeffs.getD i 0 * (lp.claim_prod_left.getD i 0 * lp.claim_prod_right.getD i 0 * eqv))).sum
  let ce ← cond isLast
    (dotp_expected_loop σ coeffs claim_dotp.1 claim_dotp.2.1 claim_dotp.2.2
      lp.claim_prod_left.length claim_dotp.1.length 0 claim_expected_prod t)
    (some (claim_expected_prod, t))
  let _ ← assertP (ce.1 = claim_final)
  let rq := challengeF (F := F) ce.2 "challenge_r_layer"
  let r_layer := rq.1
  let newClaims := List.zipWith (fun l rr => l + r_layer * (rr - l))
    lp.claim_prod_left lp.claim_prod_right
  let newDotps := if isLast then
      dotp_reduce r_layer claim_dotp.1 claim_dotp.2.1 claim_dotp.2.2
        (claim_dotp.1.length / 2) 0 dotps
    else dotps
  some ((newClaims, newDotps, r_layer :: r), rq.2)

/-- Phase one of `r1cs_satisfied_verify` with the degree of the first
sumcheck stage as a parameter (the code fixes it to `4`, verify.rs:131). -/
def r1cs_sat_phase_one_deg (d1 : ℕ) (params : R1CSSatisfiedSetupParameters G)
    (r1cs : R1CSInstance F) (proof : R1CSSatProof F G) (t : Transcript) :
    Option (List F × Transcript) := do
  let t := appendGs σ t "poly_commitment" proof.commit_witness
  let num_rounds_x := log2 r1cs.num_constraints
  let tauq := challengeVecF (F := F) t "challenge_tau" num_rounds_x
  let tau := tauq.1
  let commit_claim := poly_commit_vec params.sc_params.gen_1.generators [(0 : F)]
    params.sc_params.gen_1.h 0
  let sc1 ← sum_check_verify σ params.sc_params.gen_1 params.sc_params.gen_4 proof.proof_one
    commit_claim d1 num_rounds_x tauq.2
  let rx := sc1.1.1
  let commit_eval_x := sc1.1.2
  let kv := knowledge_verify σ params.sc_params.gen_1
    proof.knowledge_product_proof.knowledge_proof
    proof.knowledge_product_commit.vc_commit sc1.2
  let _ ← assertP (kv.1 = true)
  let pv ← product_verify σ params.sc_params.gen_1 proof.knowledge_product_proof.product_proof
    proof.knowledge_product_commit.va_commit proof.knowledge_product_commit.vb_commit
    proof.knowledge_product_commit.prod_commit kv.2
  let _ ← assertP (pv.1 = true)
  let t := appendG σ pv.2 "comm_Az_claim" proof.knowledge_product_commit.va_commit
  let t := appendG σ t "comm_Bz_claim" proof.knowledge_product_commit.vb_commit
  let t := appendG σ t "comm_Cz_claim" proof.knowledge_product_commit.vc_commit
  let t := appendG σ t "comm_prod_Az_Bz_claims" proof.knowledge_product_commit.prod_commit
  let eval_rx_tau := eval_eq_x_y rx tau
  let claim_commit_phase_one := eval_rx_tau •
    (proof.knowledge_product_commit.prod_commit - proof.knowledge_product_commit.vc_commit)
  let eq1 := eq_verify σ params.sc_params.gen_1 claim_commit_phase_one commit_eval_x
    proof.sc1_eq_proof t
  let _ ← assertP (eq1.1 = true)
  some (rx, eq1.2)

/-- Phase two of `r1cs_satisfied_verify` with the degree of the second
sumcheck stage as a parameter (the code fixes it to `3`, verify.rs:222). -/
def r1cs_sat_phase_two_deg (d2 : ℕ) (params : R1CSSatisfiedSetupParameters G)
    (inputs : List F) (proof : R1CSSatProof F G) (matrix_evals : F × F × F)
    (num_rounds_y : ℕ) (t : Transcript) :
    Option ((Bool × List F) × Transcript) := do
  let raq := challengeF (F := F) t "challenege_Az"
  let r_a := raq.1
  let rbq := challengeF (F := F) raq.2 "challenege_Bz"
  let r_b := rbq.1
  let rcq := challengeF (F := F) rbq.2 "challenege_Cz"
  let r_c := rcq.1
  let claim_commit_two := r_a • proof.knowledge_product_commit.va_commit +
    r_b • proof.knowledge_product_commit.vb_commit +
    r_c • proof.knowledge_product_commit.vc_commit
  let sc2 ← sum_check_verify σ params.sc_params.gen_1 params.sc_params.gen_3 proof.proof_two
    claim_commit_two d2 num_rounds_y rcq.2
  let ry := sc2.1.1
  let commit_eval_y := sc2.1.2
  let ipv ← inner_product_verify σ params.pc_params (ry.drop 1) proof.commit_witness
    proof.commit_ry proof.product_proof sc2.2
  let _ ← assertP (ipv.1 = true)
  let padLen ← pad_sub (2 ^ (ry.drop 1).length) inputs.length
  let public_inputs := 1 :: (inputs ++ List.replicate padLen (0 : F))
  let eval_input_tau := evaluate_value public_inputs (ry.drop 1)
  let commit_input := poly_commit_vec params.pc_params.gen_1.generators [eval_input_tau]
    params.pc_params.gen_1.h 0
  let ry0 ← ry[0]?
  let commit_eval_z := (1 - ry0) • proof.commit_ry + ry0 • commit_input
  let claim_commit_phase_two :=
    (matrix_evals.1 * r_a + matrix_evals.2.1 * r_b + matrix_evals.2.2 * r_c) • commit_eval_z
  let eq2 := eq_verify σ params.pc_params.gen_1 claim_commit_phase_two commit_eval_y
    proof.sc2_eq_proof ipv.2
  let _ ← assertP (eq2.1 = true)
  some ((eq2.1, ry), eq2.2)

/-- `r1cs_satisfied_verify` with both sumcheck degrees as parameters; the
code is this function at `(4, 3)`. -/
def r1cs_satisfied_verify_deg (d1 d2 : ℕ) (params : R1CSSatisfiedSetupParameters G)
    (r1cs : R1CSInstance F) (inputs : List F) (proof : R1CSSatProof F G)
    (matrix_evals : F × F × F) (t : Transcript) :
    Option ((Bool × List F × List F) × Transcript) := do
  let tpow := nextPow2 (max r1cs.num_aux r1cs.num_inputs)
  let num_rounds_y := log2 tpow + 1
  let p1 ← r1cs_sat_phase_one_deg σ d1 params r1cs proof t
  let p2 ← r1cs_sat_phase_two_deg σ d2 params inputs proof matrix_evals num_rounds_y p1.2
  some ((p2.1.1, p1.1, p2.1.2), p2.2)

/-! ## Concrete instantiation

Witnesses and counterexamples instantiate the embedding at the scalar field
`F = ZMod 101` with the commitment group `G = ZMod 101` acting on itself
(the Rust code is generic over `E : PairingEngine`; the claims quantify
over setup parameters, instances and proofs, which remain free). -/

/-- The concrete scalar field of the witnesses. -/
abbrev Fc := ZMod 101

instance : Fact (Nat.Prime 101) := ⟨by norm_num⟩

/-- Concrete serialization: absorb an element as its canonical value. -/
def σc : Ser Fc Fc := ⟨ZMod.val, ZMod.val⟩

/-- Zero Pedersen generators of a given count (a degenerate but well-typed
setup-parameter choice; the claims quantify over all parameters). -/
def mcZero (k : ℕ) : MultiCommitmentSetupParameters Fc :=
  ⟨List.replicate k 0, 0⟩

/-- Concrete setup parameters for `r1cs_satisfied_verify`. -/
def satParamsC : R1CSSatisfiedSetupParameters Fc :=
  ⟨⟨mcZero 1, mcZero 3, mcZero 4⟩, ⟨mcZero 1, mcZero 1⟩⟩

/-- A one-constraint R1CS instance with no inputs and no auxiliary
variables. -/
def r1csC : R1CSInstance Fc :=
  ⟨[[0]], [[0]], [[0]], 0, 0, 1⟩

/-- A two-constraint variant (its first sumcheck stage runs one round). -/
def r1csC2 : R1CSInstance Fc :=
  ⟨[[0], [0]], [[0], [0]], [[0], [0]], 0, 0, 2⟩

/-- An all-zero per-round opening proof with a length-3 disclosed vector. -/
def scEvalZero : SumCheckEvalProof Fc Fc := ⟨0, 0, [0, 0, 0], 0, 0⟩

/-- An empty sumcheck proof (zero rounds). -/
def scProofNil : SumCheckProof Fc Fc := ⟨[], [], []⟩

/-- A one-round all-zero sumcheck proof. -/
def scProofOne : SumCheckProof Fc Fc := ⟨[0], [0], [scEvalZero]⟩

/-- The all-zero satisfaction proof; it is accepted by
`r1cs_satisfied_verify` against `satParamsC` and `r1csC` with the empty
input vector. -/
def satProofOk : R1CSSatProof Fc Fc :=
  ⟨[0], scProofNil, ⟨0, 0, 0, 0⟩, ⟨⟨0, 0, 0⟩, ⟨0, 0, 0, [0, 0, 0, 0, 0]⟩⟩, ⟨0, 0⟩,
    0, scProofOne, ⟨0, 0⟩, ⟨⟨[], []⟩, 0, 0, 0, 0⟩⟩

/-- `satProofOk` with a corrupted Schnorr commitment in the knowledge
proof: the commitment-equality check of `knowledge_verify` fails on it. -/
def satProofBad : R1CSSatProof Fc Fc :=
  ⟨[0], scProofNil, ⟨0, 0, 0, 0⟩, ⟨⟨1, 0, 0⟩, ⟨0, 0, 0, [0, 0, 0, 0, 0]⟩⟩, ⟨0, 0⟩,
    0, scProofOne, ⟨0, 0⟩, ⟨⟨[], []⟩, 0, 0, 0, 0⟩⟩

/-- The accepting NIZK proof over `r1csC`. -/
def nizkProofOk : NIZKProof Fc Fc := ⟨satProofOk, ([], [])⟩

/-- The NIZK proof with the corrupted knowledge commitment. -/
def nizkProofBad : NIZKProof Fc Fc := ⟨satProofBad, ([], [])⟩

/-- A satisfaction proof fitting the degree pair `(3, 3)`: its first-stage
round discloses a length-3 vector, too short for the degree-4 check. -/
def satProofDeg : R1CSSatProof Fc Fc :=
  ⟨[0], scProofOne, ⟨0, 0, 0, 0⟩, ⟨⟨0, 0, 0⟩, ⟨0, 0, 0, [0, 0, 0, 0, 0]⟩⟩, ⟨0, 0⟩,
    0, scProofOne, ⟨0, 0⟩, ⟨⟨[], []⟩, 0, 0, 0, 0⟩⟩

/-- A fixed fresh transcript for standalone concrete runs. -/
def tC : Transcript := Transcript.new (lbl "test transcript")

/-! ## Helper lemmas -/

/-- Refolding of the `Option` bind matcher produced by `do` elaboration. -/
theorem bind_match_fold {α β : Type} (x : Option α) (f : α → Option β) :
    (match x, f with
      | none, x => none
      | some a, f => f a) = x.bind f := rfl

/-- The monadic bind on `Option` is `Option.bind`. -/
theorem bindOpt_eq {α β : Type} (x : Option α) (f : α → Option β) :
    x >>= f = x.bind f := rfl

theorem pad_sub_le {k len pad : ℕ} (h : pad_sub k len = some pad) : len + 1 ≤ k := by
  by_cases hc : len + 1 ≤ k
  · exact hc
  · simp [pad_sub, hc] at h

/-- A successful sumcheck run returns one challenge per round and, when at
least one round ran, its final commitment is the last round's evaluation
commitment (the previous rounds' evaluation commitments having been chained
into the claims). -/
theorem sum_check_rounds_spec {params_gen_1 params_gen_n : MultiCommitmentSetupParameters G}
    {proof : SumCheckProof F G} {size : ℕ} :
    ∀ (k i : ℕ) (cc : G) (rx : List F) (t : Transcript) (out : (List F × G) × Transcript),
      sum_check_rounds σ params_gen_1 params_gen_n proof size k i cc rx t = some out →
      out.1.1.length = rx.length + k ∧
        ((k = 0 ∧ out.1.2 = cc ∧ out.1.1 = rx) ∨
          (0 < k ∧ proof.comm_evals[i + k - 1]? = some out.1.2)) := by
  intro k
  induction k with
  | zero =>
    intro i cc rx t out h
    simp only [sum_check_rounds] at h
    cases h
    exact ⟨by simp, Or.inl ⟨rfl, rfl, rfl⟩⟩
  | succ k ih =>
    intro i cc rx t out h
    simp only [sum_check_rounds, bind_match_fold, bindOpt_eq, Option.bind_eq_some] at h
    obtain ⟨cp, hcp, h⟩ := h
    obtain ⟨ce, hce, h⟩ := h
    obtain ⟨pf, hpf, h⟩ := h
    obtain ⟨res, hres, h⟩ := h
    obtain ⟨u, hu, h⟩ := h
    obtain ⟨hlen, hrest⟩ := ih _ _ _ _ _ h
    constructor
    · rw [List.length_append] at hlen
      simp only [List.length_cons, List.length_nil] at hlen
      omega
    · right
      refine ⟨Nat.succ_pos k, ?_⟩
      rcases hrest with ⟨hk0, hout, _⟩ | ⟨hkpos, hcomm⟩
      · subst hk0
        simpa [hout] using hce
      · have : i + 1 + k - 1 = i + (k + 1) - 1 := by omega
        rwa [this] at hcomm

/-- A successful second phase of `r1cs_satisfied_verify` returns `true`,
a `ry` of exactly `num_rounds_y` challenges, and can only have passed the
public-input padding subtraction without underflow. -/
theorem r1cs_sat_phase_two_spec {params : R1CSSatisfiedSetupParameters G}
    {inputs : List F} {proof : R1CSSatProof F G} {me : F × F × F} {nry : ℕ}
    {t : Transcript} {out : (Bool × List F) × Transcript}
    (h : r1cs_sat_phase_two σ params inputs proof me nry t = some out) :
    out.1.1 = true ∧ out.1.2.length = nry ∧
      inputs.length + 1 ≤ 2 ^ (out.1.2.drop 1).length := by
  simp only [r1cs_sat_phase_two, bind_match_fold, bindOpt_eq, Option.bind_eq_some] at h
  obtain ⟨sc2, hsc2, h⟩ := h
  obtain ⟨ipv, hipv, h⟩ := h
  obtain ⟨u1, hu1, h⟩ := h
  obtain ⟨pad, hpad, h⟩ := h
  obtain ⟨ry0, hry0, h⟩ := h
  obtain ⟨u2, hu2, h⟩ := h
  have h2 := assertP_eq_some hu2
  have hlen := (sum_check_rounds_spec σ nry 0 _ [] _ sc2 hsc2).1
  cases h
  refine ⟨by simpa using h2, by simpa using hlen, ?_⟩
  simpa using pad_sub_le hpad

/-- A successful `r1cs_satisfied_verify` returns `true` as its boolean
component (every failing check aborts instead). -/
theorem r1cs_satisfied_verify_ok {params : R1CSSatisfiedSetupParameters G}
    {r1cs : R1CSInstance F} {inputs : List F} {proof : R1CSSatProof F G}
    {me : F × F × F} {t : Transcript} {out : (Bool × List F × List F) × Transcript}
    (h : r1cs_satisfied_verify σ params r1cs inputs proof me t = some out) :
    out.1.1 = true := by
  simp only [r1cs_satisfied_verify, bind_match_fold, bindOpt_eq, Option.bind_eq_some] at h
  obtain ⟨p1, hp1, h⟩ := h
  obtain ⟨p2, hp2, h⟩ := h
  have := (r1cs_sat_phase_two_spec σ hp2).1
  cases h
  simpa using this

/-- A successful `nizk_verify_with_transcript` carries an `Ok` value. -/
theorem nizk_wt_shape {params : R1CSSatisfiedSetupParameters G} {r1cs : R1CSInstance F}
    {inputs : List F} {proof : NIZKProof F G} {t : Transcript}
    {p : Except SynthesisError Bool × Transcript}
    (h : nizk_verify_with_transcript σ params r1cs inputs proof t = some p) :
    p.1 = Except.ok true := by
  simp only [nizk_verify_with_transcript, bind_match_fold, bindOpt_eq,
    Option.bind_eq_some] at h
  obtain ⟨out, hout, h⟩ := h
  have := r1cs_satisfied_verify_ok σ hout
  cases h
  simp [this]

/-- A successful `snark_verify_with_transcript` carries the `Ok` value. -/
theorem snark_wt_shape {params : SetupParametersWithSpark G} {r1cs : R1CSInstance F}
    {inputs : List F} {proof : SNARKProof F G} {ec : EncodeCommit G} {t : Transcript}
    {p : Except SynthesisError Unit × Transcript}
    (h : snark_verify_with_transcript σ params r1cs inputs proof ec t = some p) :
    p.1 = Except.ok () := by
  simp only [snark_verify_with_transcript, bind_match_fold, bindOpt_eq,
    Option.bind_eq_some] at h
  obtain ⟨rs, hrs, h⟩ := h
  obtain ⟨u1, hu1, h⟩ := h
  obtain ⟨sp, hsp, h⟩ := h
  obtain ⟨u2, hu2, h⟩ := h
  cases h
  rfl

/-! ## Claims -/

/-- Claim C1 (amended): an internal check failure in `nizk_verify` or
`snark_verify` (a commitment equality, a sumcheck consistency check, a
multiset identity) terminates the process via a panic — `assert!` or an
`unwrap` — modelled as `none`; the entry points never return a typed,
recoverable error value.  Their only possible returned values are
`Ok(true)` respectively `Ok(())`. -/
theorem claim_C1_failures_panic_never_typed_error :
    (∀ (params : R1CSSatisfiedSetupParameters G) (r1cs : R1CSInstance F)
        (inputs : List F) (proof : NIZKProof F G),
      nizk_verify σ params r1cs inputs proof = none ∨
        nizk_verify σ params r1cs inputs proof = some (Except.ok true)) ∧
    (∀ (params : SetupParametersWithSpark G) (r1cs : R1CSInstance F) (inputs : List F)
        (proof : SNARKProof F G) (ec : EncodeCommit G),
      snark_verify σ params r1cs inputs proof ec = none ∨
        snark_verify σ params r1cs inputs proof ec = some (Except.ok ())) := by
  constructor
  · intro params r1cs inputs proof
    unfold nizk_verify
    rcases hX : nizk_verify_with_transcript σ params r1cs inputs proof
        (Transcript.new (lbl "Spartan NIZK proof")) with _ | p
    · left; rfl
    · right
      show some p.1 = _
      rw [nizk_wt_shape σ hX]
  · intro params r1cs inputs proof ec
    unfold snark_verify
    rcases hX : snark_verify_with_transcript σ params r1cs inputs proof ec
        (Transcript.new (lbl "Spartan SNARK proof")) with _ | p
    · left; rfl
    · right
      show some p.1 = _
      rw [snark_wt_shape σ hX]

/-- Claim C1 counterexample: `nizkProofBad` fails the commitment-equality
check of `knowledge_verify` (its Schnorr commitment is corrupted), and
`nizk_verify` aborts with a panic (`none`) instead of returning a typed,
recoverable error; the same input with the commitment intact
(`nizkProofOk`) is accepted, isolating the failing check. -/
theorem claim_C1_counterexample :
    nizk_verify σc satParamsC r1csC [] nizkProofBad = none ∧
    nizk_verify σc satParamsC r1csC [] nizkProofOk ≠ none := by
  exact ⟨by decide, by decide⟩

/-- Claim C2 (amended): `nizk_verify` can never return `Ok(false)`; its
only outcomes are `Ok(true)` or a panic, because every failing internal
check aborts through `assert!` and an oversized public-input vector makes
the padding subtraction underflow.  In particular a valid proof verified
against a different public input does not return `Ok(false)`. -/
theorem claim_C2_never_ok_false :
    ∀ (params : R1CSSatisfiedSetupParameters G) (r1cs : R1CSInstance F)
      (inputs : List F) (proof : NIZKProof F G) (b : Bool),
      nizk_verify σ params r1cs inputs proof = some (Except.ok b) → b = true := by
  intro params r1cs inputs proof b h
  unfold nizk_verify at h
  rcases hX : nizk_verify_with_transcript σ params r1cs inputs proof
      (Transcript.new (lbl "Spartan NIZK proof")) with _ | p
  · rw [hX] at h
    cases h
  · rw [hX] at h
    have hs := nizk_wt_shape σ hX
    have h2 : some p.1 = some (Except.ok b) := h
    rw [hs] at h2
    injection h2 with h3
    injection h3 with h4
    exact h4.symm

/-- Claim C2 counterexample: a concrete accepting run (`Ok(true)`) whose
re-verification under a different public-input vector does not return
`Ok(false)` — it panics on the padding subtraction instead. -/
theorem claim_C2_counterexample :
    nizk_verify σc satParamsC r1csC [] nizkProofOk = some (Except.ok true) ∧
    ([(5 : Fc)] ≠ ([] : List Fc)) ∧
    nizk_verify σc satParamsC r1csC [(5 : Fc)] nizkProofOk ≠ some (Except.ok false) := by
  exact ⟨by decide, by decide, by decide⟩

/-- Claim C2 witness: the amended theorem applied at the concrete accepting
run. -/
theorem claim_C2_witness :
    nizk_verify σc satParamsC r1csC [] nizkProofOk = some (Except.ok true) ∧ true = true :=
  ⟨by decide, claim_C2_never_ok_false σc satParamsC r1csC [] nizkProofOk true (by decide)⟩

/-- Claim C9: verification is deterministic — two runs over the same
arguments, each with a fresh transcript created from the same fixed label,
produce identical results, including the final transcript whose `chlog`
field records every intermediate challenge, and the same accept/reject
outcome. -/
theorem claim_C9_determinism :
    (∀ (params : R1CSSatisfiedSetupParameters G) (r1cs : R1CSInstance F)
        (inputs : List F) (proof : NIZKProof F G) (t1 t2 : Transcript),
      t1 = Transcript.new (lbl "Spartan NIZK proof") →
      t2 = Transcript.new (lbl "Spartan NIZK proof") →
      nizk_verify_with_transcript σ params r1cs inputs proof t1 =
        nizk_verify_with_transcript σ params r1cs inputs proof t2) ∧
    (∀ (params : SetupParametersWithSpark G) (r1cs : R1CSInstance F) (inputs : List F)
        (proof : SNARKProof F G) (ec : EncodeCommit G) (t1 t2 : Transcript),
      t1 = Transcript.new (lbl "Spartan SNARK proof") →
      t2 = Transcript.new (lbl "Spartan SNARK proof") →
      snark_verify_with_transcript σ params r1cs inputs proof ec t1 =
        snark_verify_with_transcript σ params r1cs inputs proof ec t2) :=
  ⟨fun _ _ _ _ _ _ h1 h2 => by rw [h1, h2],
   fun _ _ _ _ _ _ _ h1 h2 => by rw [h1, h2]⟩

/-- Claim C9 witness: determinism instantiated at a concrete verification
run. -/
theorem claim_C9_witness :
    nizk_verify_with_transcript σc satParamsC r1csC [] nizkProofBad
        (Transcript.new (lbl "Spartan NIZK proof")) =
      nizk_verify_with_transcript σc satParamsC r1csC [] nizkProofBad
        (Transcript.new (lbl "Spartan NIZK proof")) :=
  (claim_C9_determinism σc).1 satParamsC r1csC [] nizkProofBad _ _ rfl rfl

/-- Claim C10: whenever `inputs.len() + 1` exceeds `2^(num_rounds_y − 1)`
(with `num_rounds_y = log2(next_power_of_two(max(num_aux, num_inputs))) + 1`),
the padded public-input construction of `r1cs_satisfied_verify` underflows
and the function panics (`none`) instead of returning any value. -/
theorem claim_C10_padding_underflow_panics :
    ∀ (params : R1CSSatisfiedSetupParameters G) (r1cs : R1CSInstance F)
      (inputs : List F) (proof : R1CSSatProof F G) (me : F × F × F) (t : Transcript),
      2 ^ log2 (nextPow2 (max r1cs.num_aux r1cs.num_inputs)) < inputs.length + 1 →
      r1cs_satisfied_verify σ params r1cs inputs proof me t = none := by
  intro params r1cs inputs proof me t hbig
  rcases hout : r1cs_satisfied_verify σ params r1cs inputs proof me t with _ | out
  · rfl
  · exfalso
    simp only [r1cs_satisfied_verify, bind_match_fold, bindOpt_eq,
      Option.bind_eq_some] at hout
    obtain ⟨p1, hp1, hout⟩ := hout
    obtain ⟨p2, hp2, hout⟩ := hout
    obtain ⟨_hok, hlen, hpad⟩ := r1cs_sat_phase_two_spec σ hp2
    rw [List.length_drop, hlen] at hpad
    simp only [Nat.add_sub_cancel] at hpad
    omega

/-- Claim C10 witness: the one-constraint instance has
`num_rounds_y − 1 = 0`, so a single public input already underflows the
subtraction `2^0 − 1 − 1` and the call panics. -/
theorem claim_C10_witness :
    2 ^ log2 (nextPow2 (max r1csC.num_aux r1csC.num_inputs)) < ([(5 : Fc)]).length + 1 ∧
    r1cs_satisfied_verify σc satParamsC r1csC [(5 : Fc)] satProofOk (0, 0, 0) tC = none :=
  ⟨by decide,
    claim_C10_padding_underflow_panics σc satParamsC r1csC [(5 : Fc)] satProofOk
      (0, 0, 0) tC (by decide)⟩

/-- Claim C7: the sumcheck degrees are fixed protocol constants:
`r1cs_satisfied_verify` is the degree-generalized verifier specialized at
`(4, 3)`; the product-circuit layer is the sumcheck-generalized layer
instantiated with the cubic sumcheck verifier; and specializing the degrees
differently (here `(3, 3)`) changes the observable behavior on a concrete
input, so the values cannot be varied or inferred. -/
theorem claim_C7_degrees_fixed_4_3_cubic :
    (∀ (params : R1CSSatisfiedSetupParameters G) (r1cs : R1CSInstance F)
        (inputs : List F) (proof : R1CSSatProof F G) (me : F × F × F) (t : Transcript),
      r1cs_satisfied_verify σ params r1cs inputs proof me t =
        r1cs_satisfied_verify_deg σ 4 3 params r1cs inputs proof me t) ∧
    (∀ (cd : List F) (cdp : List F × List F × List F) (lp : LayerProof F)
        (last : Bool) (nr pl : ℕ) (a b c : List F) (t : Transcript),
      product_circuit_layer σ cd cdp lp last nr pl a b c t =
        product_circuit_layer_gen σ (sum_check_cubic_verify σ) cd cdp lp last nr pl a b c t) ∧
    r1cs_satisfied_verify σc satParamsC r1csC2 [] satProofDeg (0, 0, 0) tC ≠
      r1cs_satisfied_verify_deg σc 3 3 satParamsC r1csC2 [] satProofDeg (0, 0, 0) tC := by
  refine ⟨fun _ _ _ _ _ _ => rfl, fun _ _ _ _ _ _ _ _ _ _ => rfl, by decide⟩

/-- Claim C6: one layer of the product-circuit argument is exactly the
behavior the specification describes — recompute the expected value
`Σᵢ coeffᵢ·leftᵢ·rightᵢ·eq(r, accumulated_challenges)` (plus the
final-layer `coeff·row·col·val` terms), reject on mismatch with the cubic
sumcheck's returned value, draw `r_layer`, reduce each claim to
`left + r_layer·(right − left)` and prepend `r_layer` to the layer's
challenge vector — and the layer loop of `product_circuit_eval_verify`
steps through exactly this layer function. -/
theorem claim_C6_layer_matches_description :
    (∀ (cd : List F) (cdp : List F × List F × List F) (lp : LayerProof F)
        (last : Bool) (nr pl : ℕ) (a b c : List F) (t : Transcript),
      product_circuit_layer σ cd cdp lp last nr pl a b c t =
        product_circuit_layer_claim σ cd cdp lp last nr pl a b c t) ∧
    (∀ (cd : List F) (cdp : List F × List F × List F) (pl ln : ℕ)
        (lp : LayerProof F) (rest : List (LayerProof F)) (i : ℕ)
        (st : List F × List F × List F) (t : Transcript),
      pcev_loop σ cd cdp pl ln (lp :: rest) i st t =
        (product_circuit_layer σ cd cdp lp (decide (i = ln - 1)) i pl st.1 st.2.1
          st.2.2 t).bind
          (fun out => pcev_loop σ cd cdp pl ln rest (i + 1) out.1 out.2)) := by
  constructor
  · intro cd cdp lp last nr pl a b c t
    rfl
  · intro cd cdp pl ln lp rest i st t
    simp only [pcev_loop, bind_match_fold, bindOpt_eq]

/-- The length asserts of one product-circuit layer must have passed on any
successful layer run. -/
theorem product_circuit_layer_lens {cd : List F} {cdp : List F × List F × List F}
    {lp : LayerProof F} {last : Bool} {nr pl : ℕ} {a b c : List F} {t : Transcript}
    {out : (List F × List F × List F) × Transcript}
    (h : product_circuit_layer σ cd cdp lp last nr pl a b c t = some out) :
    lp.claim_prod_left.length = lp.claim_prod_right.length ∧
      lp.claim_prod_left.length = pl := by
  simp only [product_circuit_layer, bind_match_fold, bindOpt_eq, Option.bind_eq_some] at h
  obtain ⟨sc, hsc, h⟩ := h
  obtain ⟨u1, hu1, h⟩ := h
  obtain ⟨u2, hu2, h⟩ := h
  exact ⟨assertP_eq_some hu1, assertP_eq_some hu2⟩

/-- The layer loop enforces the length asserts on every layer it
processes. -/
theorem pcev_loop_lengths {cd : List F} {cdp : List F × List F × List F} {pl ln : ℕ} :
    ∀ (layers : List (LayerProof F)) (i : ℕ) (st : List F × List F × List F)
      (t : Transcript) (out : (List F × List F × List F) × Transcript),
      pcev_loop σ cd cdp pl ln layers i st t = some out →
      ∀ lp ∈ layers, lp.claim_prod_left.length = lp.claim_prod_right.length ∧
        lp.claim_prod_left.length = pl := by
  intro layers
  induction layers with
  | nil =>
    intro i st t out h lp hlp
    cases hlp
  | cons L rest ih =>
    intro i st t out h lp hlp
    simp only [pcev_loop, bind_match_fold, bindOpt_eq, Option.bind_eq_some] at h
    obtain ⟨o1, ho1, h⟩ := h
    rcases List.mem_cons.mp hlp with rfl | hmem
    · exact product_circuit_layer_lens σ ho1
    · exact ih _ _ _ _ h lp hmem

/-- Claim C8: on every successful run of `product_circuit_eval_verify`,
each layer's left-claim and right-claim vectors have equal length, and that
length is the original product-claim count (`claims_prod_circuit.length`) —
at every layer, including the final one where the dot-product claims are
appended to the claims being combined but not to the left/right vectors. -/
theorem claim_C8_layer_claim_lengths :
    ∀ (proof : ProductCircuitEvalProof F) (cp cd : List F) (n : ℕ) (t : Transcript),
      (product_circuit_eval_verify σ proof cp cd n t).isSome = true →
      ∀ lp ∈ proof.layers_proof,
        lp.claim_prod_left.length = lp.claim_prod_right.length ∧
        lp.claim_prod_left.length = cp.length := by
  intro proof cp cd n t hs
  obtain ⟨out, hout⟩ := Option.isSome_iff_exists.mp hs
  simp only [product_circuit_eval_verify, bind_match_fold, bindOpt_eq,
    Option.bind_eq_some] at hout
  obtain ⟨u, hu, hout⟩ := hout
  exact pcev_loop_lengths σ _ _ _ _ _ hout

/-- A concrete accepting one-layer product-circuit proof: one product claim
`1` with `left = right = [1]` over `n = 2` leaves. -/
def pcevProofC : ProductCircuitEvalProof Fc := ⟨[⟨[], [1], [1]⟩], ([], [], [])⟩

/-- Claim C8 witness: the invariant theorem applied to the concrete
accepting one-layer run. -/
theorem claim_C8_witness :
    (product_circuit_eval_verify σc pcevProofC [1] [] 2 tC).isSome = true ∧
    ∀ lp ∈ pcevProofC.layers_proof,
      lp.claim_prod_left.length = lp.claim_prod_right.length ∧
      lp.claim_prod_left.length = ([(1 : Fc)]).length :=
  ⟨by decide, claim_C8_layer_claim_lengths σc pcevProofC [1] [] 2 tC (by decide)⟩

/-- Claim C4 (amended): on success the generic sumcheck verifier returns
exactly one challenge per round together with the final round's evaluation
commitment (each round's evaluation commitment having become the next
round's claim commitment; with zero rounds the initial claim commitment is
returned).  The round challenge, however, is derived right after absorbing
the round's committed polynomial and before the current claim commitment
and the round's evaluation commitment are absorbed — not after absorbing
the evaluation commitment as the specification sentence orders the steps. -/
theorem claim_C4_sum_check_round_structure :
    ∀ (pg1 pgn : MultiCommitmentSetupParameters G) (proof : SumCheckProof F G)
      (cc : G) (size nr : ℕ) (t : Transcript) (out : (List F × G) × Transcript),
      sum_check_verify σ pg1 pgn proof cc size nr t = some out →
      out.1.1.length = nr ∧
        ((nr = 0 ∧ out.1.2 = cc) ∨ (0 < nr ∧ proof.comm_evals[nr - 1]? = some out.1.2)) := by
  intro pg1 pgn proof cc size nr t out h
  obtain ⟨hlen, hrest⟩ := sum_check_rounds_spec σ nr 0 cc [] t out h
  refine ⟨by simpa using hlen, ?_⟩
  rcases hrest with ⟨h0, hcc, _⟩ | ⟨hpos, hcomm⟩
  · exact Or.inl ⟨h0, hcc⟩
  · exact Or.inr ⟨hpos, by simpa using hcomm⟩

/-- The concrete output of the one-round sumcheck run used as the C4
witness. -/
def scOutC : (List Fc × Fc) × Transcript :=
  (sum_check_verify σc (mcZero 1) (mcZero 3) scProofOne 0 3 1 tC).getD (([], 0), tC)

/-- Claim C4 witness: the structure theorem applied to a concrete
successful one-round run. -/
theorem claim_C4_witness :
    sum_check_verify σc (mcZero 1) (mcZero 3) scProofOne 0 3 1 tC = some scOutC ∧
    (scOutC.1.1.length = 1 ∧
      ((1 = 0 ∧ scOutC.1.2 = 0) ∨ (0 < 1 ∧ scProofOne.comm_evals[1 - 1]? = some scOutC.1.2))) :=
  ⟨by decide,
    claim_C4_sum_check_round_structure σc (mcZero 1) (mcZero 3) scProofOne 0 3 1 tC
      scOutC (by decide)⟩

/-- Claim C4 counterexample: the specification's step order — absorb the
round polynomial and the evaluation commitment, then derive the challenge
(`sum_check_verify_claimed`) — produces a different challenge vector than
the code, which derives the challenge before absorbing the claim and
evaluation commitments: both runs succeed on the same input but return
different challenges. -/
theorem claim_C4_counterexample :
    (sum_check_verify σc (mcZero 1) (mcZero 3) scProofOne 0 3 1 tC).isSome = true ∧
    (sum_check_verify_claimed σc (mcZero 1) (mcZero 3) scProofOne 0 3 1 tC).isSome = true ∧
    (sum_check_verify σc (mcZero 1) (mcZero 3) scProofOne 0 3 1 tC).map (fun x => x.1.1) ≠
      (sum_check_verify_claimed σc (mcZero 1) (mcZero 3) scProofOne 0 3 1 tC).map
        (fun x => x.1.1) := by
  exact ⟨by decide, by decide, by decide⟩

/-- The transcript prologue of `sum_check_eval_verify`
(verify.rs:335–351): the two combining scalars `w`, the challenge `c`, and
the transcript after `c` was drawn. -/
def sc_eval_challenges (cp ce cc d_commit dot_cd : G) (t : Transcript) :
    (F × F) × F × Transcript :=
  let wq := challengeVecF (F := F) t "combine_two_claims_to_one" 2
  let w0 := wq.1.getD 0 0
  let w1 := wq.1.getD 1 0
  let t2 := appendG σ wq.2 "Cx" cp
  let ccv := w0 • cc + w1 • ce
  let t3 := appendG σ t2 "Cy" ccv
  let t4 := appendG σ t3 "delta" d_commit
  let t5 := appendG σ t4 "beta" dot_cd
  let cq := challengeF (F := F) t5 "c"
  ((w0, w1), cq.1, cq.2)

/-- The head-form of the structured coefficient vector construction. -/
theorem sc_coeffs_range_cons (w0 w1 r : F) (n : ℕ) :
    (List.range (n + 1)).map (fun i => w0 + w1 * r ^ i) =
      (w0 + w1 * r ^ 0) :: (List.range n).map (fun i => w0 + w1 * r ^ (i + 1)) := by
  rw [List.range_succ_eq_map, List.map_cons, List.map_map]
  rfl

/-- Claim C5: for any nonzero degree and sufficiently long disclosed vector,
the per-round evaluation-consistency check returns exactly the conjunction
of the two linear-commitment identities — (a) `c·commit_poly + commit(d)`
equals the Pedersen commitment to `z` with blinding `z_delta`, and (b) the
Pedersen commitment (blinding `z_beta`) to `Σᵢ z[i]·coeffs[i]` against the
structured coefficient vector equals `c·commit_claim_value + dot_cd_commit`
with `commit_claim_value = w₀·commit_claim + w₁·commit_eval` — so the check
accepts iff both hold and returns `false` as soon as either fails. -/
theorem claim_C5_eval_check_is_two_identities :
    ∀ (pg1 pgn : MultiCommitmentSetupParameters G) (cp ce cc : G)
      (prf : SumCheckEvalProof F G) (r : F) (size : ℕ) (t : Transcript),
      0 < size → size ≤ prf.z.length →
      sum_check_eval_verify σ pg1 pgn cp ce cc prf r size t =
        (let q := sc_eval_challenges σ cp ce cc prf.d_commit prf.dot_cd_commit t
         some
           (decide (q.2.1 • cp + prf.d_commit =
              poly_commit_vec pgn.generators prf.z pgn.h prf.z_delta) &&
            decide (q.2.1 • (q.1.1 • cc + q.1.2 • ce) + prf.dot_cd_commit =
              poly_commit_vec pg1.generators
                [((List.range size).map (fun i =>
                    prf.z.getD i 0 * (sc_coeffs q.1.1 q.1.2 r size).getD i 0)).sum]
                pg1.h prf.z_beta),
            q.2.2)) := by
  intro pg1 pgn cp ce cc prf r size t hpos hlen
  obtain ⟨n, rfl⟩ : ∃ n, size = n + 1 := ⟨size - 1, by omega⟩
  simp only [sum_check_eval_verify, sc_eval_challenges, sc_coeffs, bind_match_fold,
    bindOpt_eq, sc_coeffs_range_cons, zdot, if_pos hlen, Option.some_bind]

/-- Claim C5 witness: the characterization applied to a concrete check with
degree 3 and a length-3 disclosed vector. -/
theorem claim_C5_witness :
    sum_check_eval_verify σc (mcZero 1) (mcZero 3) 0 0 0 scEvalZero 2 3 tC =
      (let q := sc_eval_challenges σc (0 : Fc) 0 0 scEvalZero.d_commit
        scEvalZero.dot_cd_commit tC
       some
         (decide (q.2.1 • (0 : Fc) + scEvalZero.d_commit =
            poly_commit_vec (mcZero 3).generators scEvalZero.z (mcZero 3).h
              scEvalZero.z_delta) &&
          decide (q.2.1 • (q.1.1 • (0 : Fc) + q.1.2 • (0 : Fc)) + scEvalZero.dot_cd_commit =
            poly_commit_vec (mcZero 1).generators
              [((List.range 3).map (fun i =>
                  scEvalZero.z.getD i 0 * (sc_coeffs q.1.1 q.1.2 2 3).getD i 0)).sum]
              (mcZero 1).h scEvalZero.z_beta),
          q.2.2)) :=
  claim_C5_eval_check_is_two_identities σc (mcZero 1) (mcZero 3) 0 0 0 scEvalZero 2 3 tC
    (by decide) (by decide)

/-! ## Claim C3: the memory-checking identities -/

theorem assertP_eq_some_iff {p : Prop} [Decidable p] {u : Unit} :
    assertP p = some u ↔ p := by
  by_cases hp : p <;> simp [assertP, hp]

theorem getElem?_eq_some_getD {α : Type} {l : List α} {i : ℕ} (h : i < l.length) (d : α) :
    l[i]? = some (l.getD i d) := by
  rw [List.getElem?_eq_getElem h, List.getD_eq_getElem _ d h]

/-- The read-hash loop succeeds iff every checked position satisfies the
spec's hash identity with the read timestamp. -/
theorem hash_reads_loop_iff {cl a v ts : List F} {g1 g2 : F} :
    ∀ (k i : ℕ), i + k ≤ a.length → a.length ≤ v.length → a.length ≤ ts.length →
      a.length ≤ cl.length →
      (hash_reads_loop cl a v ts g1 g2 k i = some () ↔
        ∀ j, i ≤ j → j < i + k →
          cl.getD j 0 = mem_hash g1 g2 (a.getD j 0) (v.getD j 0) (ts.getD j 0)) := by
  intro k
  induction k with
  | zero =>
    intro i _ _ _ _
    simp only [hash_reads_loop]
    constructor
    · intro _ j h1 h2
      omega
    · intro _
      trivial
  | succ k ih =>
    intro i hik hv hts hcl
    have hia : i < a.length := by omega
    simp only [hash_reads_loop, bind_match_fold, bindOpt_eq, Option.bind_eq_some,
      getElem?_eq_some_getD hia (0 : F),
      getElem?_eq_some_getD (lt_of_lt_of_le hia hv) (0 : F),
      getElem?_eq_some_getD (lt_of_lt_of_le hia hts) (0 : F),
      getElem?_eq_some_getD (lt_of_lt_of_le hia hcl) (0 : F),
      Option.some.injEq, exists_eq_left', assertP_eq_some_iff, exists_const]
    rw [ih (i + 1) (by omega) hv hts hcl]
    constructor
    · rintro ⟨hp, hrest⟩ j h1 h2
      rcases eq_or_lt_of_le h1 with rfl | hlt
      · exact hp
      · exact hrest j hlt (by omega)
    · intro hall
      exact ⟨hall i le_rfl (by omega), fun j h1 h2 => hall j (by omega) (by omega)⟩

/-- The write-hash loop succeeds iff every checked position satisfies the
spec's hash identity with the read timestamp plus one. -/
theorem hash_writes_loop_iff {cl a v ts : List F} {g1 g2 : F} :
    ∀ (k i : ℕ), i + k ≤ a.length → a.length ≤ v.length → a.length ≤ ts.length →
      a.length ≤ cl.length →
      (hash_writes_loop cl a v ts g1 g2 k i = some () ↔
        ∀ j, i ≤ j → j < i + k →
          cl.getD j 0 = mem_hash g1 g2 (a.getD j 0) (v.getD j 0) (ts.getD j 0 + 1)) := by
  intro k
  induction k with
  | zero =>
    intro i _ _ _ _
    simp only [hash_writes_loop]
    constructor
    · intro _ j h1 h2
      omega
    · intro _
      trivial
  | succ k ih =>
    intro i hik hv hts hcl
    have hia : i < a.length := by omega
    simp only [hash_writes_loop, bind_match_fold, bindOpt_eq, Option.bind_eq_some,
      getElem?_eq_some_getD hia (0 : F),
      getElem?_eq_some_getD (lt_of_lt_of_le hia hv) (0 : F),
      getElem?_eq_some_getD (lt_of_lt_of_le hia hts) (0 : F),
      getElem?_eq_some_getD (lt_of_lt_of_le hia hcl) (0 : F),
      Option.some.injEq, exists_eq_left', assertP_eq_some_iff, exists_const]
    rw [ih (i + 1) (by omega) hv hts hcl]
    constructor
    · rintro ⟨hp, hrest⟩ j h1 h2
      rcases eq_or_lt_of_le h1 with rfl | hlt
      · exact hp
      · exact hrest j hlt (by omega)
    · intro hall
      exact ⟨hall i le_rfl (by omega), fun j h1 h2 => hall j (by omega) (by omega)⟩

/-- A successful memory-side check of `product_layer_verify` implies the
offline memory-checking product identity. -/
theorem plv_memory_checks_identity {side : String} {claims : F × List F × List F × F}
    {t : Transcript} {out : Transcript}
    (h : plv_memory_checks σ side claims t = some out) :
    claims.1 * claims.2.2.1.prod = claims.2.1.prod * claims.2.2.2 := by
  simp only [plv_memory_checks, bind_match_fold, bindOpt_eq, Option.bind_eq_some] at h
  obtain ⟨u, hu, h⟩ := h
  exact assertP_eq_some hu

/-- A successful `product_layer_verify` implies both per-memory product
identities. -/
theorem product_layer_verify_identities {proof : ProductLayerProof F} {n m : ℕ}
    {evals : List F} {t : Transcript}
    {out : (List F × List F × List F × List F × List F × List F) × Transcript}
    (h : product_layer_verify σ proof n m evals t = some out) :
    proof.eval_row.1 * proof.eval_row.2.2.1.prod =
        proof.eval_row.2.1.prod * proof.eval_row.2.2.2 ∧
      proof.eval_col.1 * proof.eval_col.2.2.1.prod =
        proof.eval_col.2.1.prod * proof.eval_col.2.2.2 := by
  simp only [product_layer_verify, bind_match_fold, bindOpt_eq, Option.bind_eq_some] at h
  obtain ⟨u0, hu0, h⟩ := h
  obtain ⟨tr, htr, h⟩ := h
  obtain ⟨tc2, htc, h⟩ := h
  exact ⟨plv_memory_checks_identity σ htr, plv_memory_checks_identity σ htc⟩

/-- Claim C3: the memory-checking argument checks, for the row memory and
the col memory alike, the offline memory-checking identity
`init · ∏ write-claims = ∏ read-claims · audit` — a violated identity makes
`product_layer_verify` reject (abort) — and `behind_verify_for_timestamp`
succeeds exactly when every claim equals the recomputed hash
`addr·γ1² + value·γ1 + timestamp − γ2` (`mem_hash`), with timestamp `0` for
the init row, the read timestamp for reads, the read timestamp plus one for
writes, and the audit timestamp for the audit row. -/
theorem claim_C3_memory_checking_identities :
    (∀ (proof : ProductLayerProof F) (n m : ℕ) (evals : List F) (t : Transcript),
      proof.eval_row.1 * proof.eval_row.2.2.1.prod ≠
        proof.eval_row.2.1.prod * proof.eval_row.2.2.2 →
      product_layer_verify σ proof n m evals t = none) ∧
    (∀ (proof : ProductLayerProof F) (n m : ℕ) (evals : List F) (t : Transcript),
      proof.eval_col.1 * proof.eval_col.2.2.1.prod ≠
        proof.eval_col.2.1.prod * proof.eval_col.2.2.2 →
      product_layer_verify σ proof n m evals t = none) ∧
    (∀ (rands : List F × List F) (claims : F × List F × List F × F)
        (r ov al tl : List F) (av : F) (γ : F × F),
      al.length ≤ ov.length → al.length ≤ tl.length →
      al.length ≤ claims.2.1.length → al.length ≤ claims.2.2.1.length →
      (behind_verify_for_timestamp rands claims r ov al tl av γ = some true ↔
        (claims.1 = mem_hash γ.1 γ.2 (eval_init_addr_at rands.2) (eval_eq_x_y r rands.2) 0 ∧
         (∀ j, j < al.length → claims.2.1.getD j 0 =
            mem_hash γ.1 γ.2 (al.getD j 0) (ov.getD j 0) (tl.getD j 0)) ∧
         (∀ j, j < al.length → claims.2.2.1.getD j 0 =
            mem_hash γ.1 γ.2 (al.getD j 0) (ov.getD j 0) (tl.getD j 0 + 1)) ∧
         claims.2.2.2 = mem_hash γ.1 γ.2 (eval_init_addr_at rands.2) (eval_eq_x_y r rands.2) av))) := by
  refine ⟨?_, ?_, ?_⟩
  · intro proof n m evals t hne
    rcases hres : product_layer_verify σ proof n m evals t with _ | out
    · rfl
    · exact absurd (product_layer_verify_identities σ hres).1 hne
  · intro proof n m evals t hne
    rcases hres : product_layer_verify σ proof n m evals t with _ | out
    · rfl
    · exact absurd (product_layer_verify_identities σ hres).2 hne
  · intro rands claims r ov al tl av γ h1 h2 h3 h4
    constructor
    · intro h
      simp only [behind_verify_for_timestamp, bind_match_fold, bindOpt_eq,
        Option.bind_eq_some] at h
      obtain ⟨u1, hu1, h⟩ := h
      obtain ⟨u2, hu2, h⟩ := h
      obtain ⟨u3, hu3, h⟩ := h
      obtain ⟨u4, hu4, _h⟩ := h
      have hinit := assertP_eq_some hu1
      have haudit := assertP_eq_some hu4
      cases u2
      cases u3
      have hreads := (hash_reads_loop_iff al.length 0 (by omega) h1 h2 h3).mp hu2
      have hwrites := (hash_writes_loop_iff al.length 0 (by omega) h1 h2 h4).mp hu3
      refine ⟨?_, ?_, ?_, ?_⟩
      · rw [hinit, mem_hash]
        ring
      · intro j hj
        exact hreads j (by omega) (by omega)
      · intro j hj
        exact hwrites j (by omega) (by omega)
      · exact haudit
    · rintro ⟨hinit, hreads, hwrites, haudit⟩
      simp only [behind_verify_for_timestamp, bind_match_fold, bindOpt_eq,
        Option.bind_eq_some]
      refine ⟨(), assertP_of ?_, (), ?_, (), ?_, (), assertP_of haudit, trivial⟩
      · rw [hinit, mem_hash]
        ring
      · exact (hash_reads_loop_iff al.length 0 (by omega) h1 h2 h3).mpr
          (fun j _ hj => hreads j (by omega))
      · exact (hash_writes_loop_iff al.length 0 (by omega) h1 h2 h4).mpr
          (fun j _ hj => hwrites j (by omega))

/-- A product-layer proof whose row memory violates the multiset identity:
`2 · ∏[1,1,1] = 2` but `∏[1,1,1] · 3 = 3`. -/
def plvBadRow : ProductLayerProof Fc :=
  ⟨(2, [1, 1, 1], [1, 1, 1], 3), (0, [], [], 0), ([], []),
    ⟨[], ([], [], [])⟩, ⟨[], ([], [], [])⟩⟩

/-- A product-layer proof whose row identity holds but whose col memory
violates the multiset identity. -/
def plvBadCol : ProductLayerProof Fc :=
  ⟨(1, [1, 1, 1], [1, 1, 1], 1), (2, [1, 1, 1], [1, 1, 1], 3), ([], []),
    ⟨[], ([], [], [])⟩, ⟨[], ([], [], [])⟩⟩

/-- Claim C3 witness: the rejection parts applied to concrete violated
identities, and the hash-identity characterization applied to a concrete
(empty-trace) instance on which it holds. -/
theorem claim_C3_witness :
    product_layer_verify σc plvBadRow 1 1 [0, 0, 0] tC = none ∧
    product_layer_verify σc plvBadCol 1 1 [0, 0, 0] tC = none ∧
    (behind_verify_for_timestamp (([] : List Fc), ([] : List Fc))
        ((2 : Fc), ([] : List Fc), ([] : List Fc), (9 : Fc)) [] [] [] [] 7 (5, 3) =
        some true ↔
      ((2 : Fc) = mem_hash (5 : Fc) 3 (eval_init_addr_at []) (eval_eq_x_y [] []) 0 ∧
       (∀ j, j < ([] : List Fc).length → ([] : List Fc).getD j 0 =
          mem_hash (5 : Fc) 3 (([] : List Fc).getD j 0) (([] : List Fc).getD j 0)
            (([] : List Fc).getD j 0)) ∧
       (∀ j, j < ([] : List Fc).length → ([] : List Fc).getD j 0 =
          mem_hash (5 : Fc) 3 (([] : List Fc).getD j 0) (([] : List Fc).getD j 0)
            (([] : List Fc).getD j 0 + 1)) ∧
       (9 : Fc) = mem_hash (5 : Fc) 3 (eval_init_addr_at []) (eval_eq_x_y [] []) 7)) :=
  ⟨(claim_C3_memory_checking_identities σc).1 plvBadRow 1 1 [0, 0, 0] tC (by decide),
   (claim_C3_memory_checking_identities σc).2.1 plvBadCol 1 1 [0, 0, 0] tC (by decide),
   (claim_C3_memory_checking_identities σc).2.2 (([] : List Fc), ([] : List Fc))
     ((2 : Fc), ([] : List Fc), ([] : List Fc), (9 : Fc)) [] [] [] [] 7 (5, 3)
     (by decide) (by decide) (by decide) (by decide)⟩

end Spartan
